import Mathlib

/-!
# GLES11RenderEngine: a verification development

Embedding of `services/surfaceflinger/RenderEngine/GLES11RenderEngine.cpp`.

The engine is sequential state mutation on one implicit OpenGL ES 1.1 context.
The context is modelled as an explicit record (`GLState`); every `gl*` entry
point the engine calls is a function on that record, and every method of the
engine is the composition of the calls it makes, in source order.

Numeric conventions: a `GLfloat` is the rational its IEEE 754 binary32 value
denotes, and every conversion or operation the engine does in `GLfloat` is
rounded to nearest, ties to even (`GLfloat.round`); `int`/`GLint` values are
integers; `size_t` values are naturals, narrowed explicitly where the source
passes them to a 32-bit GL parameter and rounded where it passes them to a
`GLfloat` parameter. Inside the GL, the orthographic matrix, the matrix
product and the texture combiner are computed as the OpenGL ES 1.1
specification defines them, in exact arithmetic.
-/

namespace GLES11

/-! ## Enumerants of the GL API used by the engine -/

/-- Argument of `glMatrixMode`. -/
inductive MatrixMode where
  | modelview | projection | texture
  deriving DecidableEq, Repr

/-- Texture targets: `GL_TEXTURE_2D` and `GL_TEXTURE_EXTERNAL_OES`. -/
inductive TexTarget where
  | texture2D | textureExternalOES
  deriving DecidableEq, Repr

/-- Server-side capabilities given to `glEnable` / `glDisable`. -/
inductive Cap where
  | blend | dither | cullFace | texture2D | textureExternalOES
  deriving DecidableEq, Repr

/-- Client-side arrays given to `glEnableClientState` / `glDisableClientState`. -/
inductive ClientArray where
  | vertexArray | texCoordArray
  deriving DecidableEq, Repr

/-- Argument of `glShadeModel`. -/
inductive ShadeModel where
  | flat | smooth
  deriving DecidableEq, Repr

/-- Arguments of `glBlendFunc`. -/
inductive BlendFactor where
  | zero | one | srcColor | oneMinusSrcColor | srcAlpha | oneMinusSrcAlpha
  | dstAlpha | oneMinusDstAlpha | dstColor | oneMinusDstColor | srcAlphaSaturate
  deriving DecidableEq, Repr

/-- Values of `GL_TEXTURE_ENV_MODE`. -/
inductive TexEnvMode where
  | replace | modulate | decal | blend | add | combine
  deriving DecidableEq, Repr

/-- Values of `GL_COMBINE_RGB` / `GL_COMBINE_ALPHA` taking at most two arguments. -/
inductive CombineFn where
  | replace | modulate | add | addSigned | subtract
  deriving DecidableEq, Repr

/-- Values of `GL_SRCn_RGB` / `GL_SRCn_ALPHA`. -/
inductive CombineSrc where
  | texture | constant | primaryColor | previous
  deriving DecidableEq, Repr

/-- Values of `GL_OPERANDn_RGB`. -/
inductive RGBOperand where
  | srcColor | oneMinusSrcColor | srcAlpha | oneMinusSrcAlpha
  deriving DecidableEq, Repr

/-- Values of `GL_OPERANDn_ALPHA`. -/
inductive AlphaOperand where
  | srcAlpha | oneMinusSrcAlpha
  deriving DecidableEq, Repr

/-- Texture filters. -/
inductive TexFilter where
  | nearest | linear
  | nearestMipmapNearest | linearMipmapNearest | nearestMipmapLinear | linearMipmapLinear
  deriving DecidableEq, Repr

/-- Texture wrap modes. -/
inductive TexWrap where
  | repeat | clampToEdge
  deriving DecidableEq, Repr

/-- A `(pname, param)` pair of `glTexParameterx`. -/
inductive TexParam where
  | magFilter (f : TexFilter)
  | minFilter (f : TexFilter)
  | wrapS (m : TexWrap)
  | wrapT (m : TexWrap)
  deriving DecidableEq, Repr

/-- A `(pname, param)` pair of `glTexEnvi(GL_TEXTURE_ENV, pname, param)`. -/
inductive TexEnvParam where
  | envMode (m : TexEnvMode)
  | combineRGB (f : CombineFn)
  | combineAlpha (f : CombineFn)
  | src0RGB (c : CombineSrc)
  | src1RGB (c : CombineSrc)
  | operand0RGB (o : RGBOperand)
  | operand1RGB (o : RGBOperand)
  | src0Alpha (c : CombineSrc)
  | src1Alpha (c : CombineSrc)
  | operand0Alpha (o : AlphaOperand)
  | operand1Alpha (o : AlphaOperand)
  deriving DecidableEq, Repr

/-- Pixel formats of `glTexImage2D`. -/
inductive PixelFormat where
  | alpha | rgb | rgba | luminance | luminanceAlpha
  deriving DecidableEq, Repr

/-- Pixel types of `glTexImage2D`. -/
inductive PixelType where
  | unsignedByte | unsignedShort565 | unsignedShort4444 | unsignedShort5551
  deriving DecidableEq, Repr

/-- Primitive kinds of `glDrawArrays`. -/
inductive Primitive where
  | points | lines | lineLoop | lineStrip | triangles | triangleStrip | triangleFan
  deriving DecidableEq, Repr

/-- Parameter names of `glPixelStorei`. -/
inductive PixelStore where
  | unpackAlignment | packAlignment
  deriving DecidableEq, Repr

/-! ## Values -/

/-- An RGBA colour. -/
@[ext] structure Color where
  r : ℚ
  g : ℚ
  b : ℚ
  a : ℚ
  deriving DecidableEq

/-- A homogeneous 4-vector. -/
@[ext] structure Vec4 where
  x : ℚ
  y : ℚ
  z : ℚ
  w : ℚ
  deriving DecidableEq

/-- A 4x4 matrix stored by columns, the layout `glLoadMatrixf` reads. -/
@[ext] structure Mat4 where
  c0 : Vec4
  c1 : Vec4
  c2 : Vec4
  c3 : Vec4
  deriving DecidableEq

/-! ### `GLfloat` arithmetic -/

/-- The integer nearest to `a / b`, ties to even. -/
def roundHalfEven (a b : Nat) : Nat :=
  if 2 * (a % b) < b then a / b
  else if b < 2 * (a % b) then a / b + 1
  else if (a / b) % 2 = 0 then a / b else a / b + 1

/-- Binary logarithm rounded down, by halving at most `fuel` times. -/
def log2Fuel : Nat → Nat → Nat
  | 0, _ => 0
  | fuel + 1, n => if n < 2 then 0 else log2Fuel fuel (n / 2) + 1

/-- Binary logarithm of a natural number, rounded down (0 for 0). -/
def ilog2 (n : Nat) : Nat := log2Fuel n n

/-- The exponent `e` with `2^e ≤ a / b < 2^(e+1)`, for positive `a` and `b`. -/
def binade (a b : Nat) : Int :=
  if 2 ^ ilog2 a * b ≤ a * 2 ^ ilog2 b then (ilog2 a : Int) - (ilog2 b : Int)
  else (ilog2 a : Int) - (ilog2 b : Int) - 1

/-- Rounding of a real value to IEEE 754 binary32, to nearest with ties to
even: 24 significant bits, least exponent -126 (below it the spacing stays
`2^-149`). Overflow to infinity is not represented; the operands of the engine
come from `int` and `size_t` values and stay far below the binary32 range. -/
def GLfloat.round (q : ℚ) : ℚ :=
  if q.num = 0 then 0
  else
    let k : Int := max (binade q.num.natAbs q.den) (-126) - 23
    let n : Nat :=
      if 0 ≤ k then roundHalfEven q.num.natAbs (q.den * 2 ^ k.toNat)
      else roundHalfEven (q.num.natAbs * 2 ^ (-k).toNat) q.den
    let v : ℚ :=
      if 0 ≤ k then ((n * 2 ^ k.toNat : Nat) : ℚ)
      else ((n : Nat) : ℚ) / ((2 ^ (-k).toNat : Nat) : ℚ)
    if q.num < 0 then -v else v

/-- Conversion of an `int` to `GLfloat`. -/
def GLfloat.ofInt (i : Int) : ℚ := GLfloat.round i

/-- Conversion of a `size_t` to `GLfloat`. -/
def GLfloat.ofNat (n : Nat) : ℚ := GLfloat.round n

/-- The `GLfloat` product `a * b`. -/
def GLfloat.mul (a b : ℚ) : ℚ := GLfloat.round (a * b)

/-- The `GLfloat` quotient `a / b`. -/
def GLfloat.div (a b : ℚ) : ℚ := GLfloat.round (a / b)

/-- Clamping to the range `[0, 1]`. -/
def clamp01 (q : ℚ) : ℚ := max 0 (min q 1)

/-- Componentwise sum of two vectors. -/
def Vec4.add (u v : Vec4) : Vec4 := ⟨u.x + v.x, u.y + v.y, u.z + v.z, u.w + v.w⟩

/-- Scaling of a vector. -/
def Vec4.smul (k : ℚ) (v : Vec4) : Vec4 := ⟨k * v.x, k * v.y, k * v.z, k * v.w⟩

/-- Matrix times column vector. -/
def Mat4.mulVec (m : Mat4) (v : Vec4) : Vec4 :=
  Vec4.add (Vec4.add (Vec4.smul v.x m.c0) (Vec4.smul v.y m.c1))
    (Vec4.add (Vec4.smul v.z m.c2) (Vec4.smul v.w m.c3))

/-- Matrix product `a * b`. -/
def Mat4.mul (a b : Mat4) : Mat4 :=
  ⟨a.mulVec b.c0, a.mulVec b.c1, a.mulVec b.c2, a.mulVec b.c3⟩

/-- The identity matrix. -/
def Mat4.identity : Mat4 :=
  ⟨⟨1, 0, 0, 0⟩, ⟨0, 1, 0, 0⟩, ⟨0, 0, 1, 0⟩, ⟨0, 0, 0, 1⟩⟩

/-- The matrix `glOrthof(l, r, b, t, n, f)` multiplies the current matrix by. -/
def Mat4.ortho (l r b t n f : ℚ) : Mat4 :=
  ⟨⟨2 / (r - l), 0, 0, 0⟩,
   ⟨0, 2 / (t - b), 0, 0⟩,
   ⟨0, 0, -2 / (f - n), 0⟩,
   ⟨-(r + l) / (r - l), -(t + b) / (t - b), -(f + n) / (f - n), 1⟩⟩

/-- Normalized device coordinates (x and y) of the point `(x, y, 0, 1)` under
the projection `p`: clip coordinates divided by the clip `w`. -/
def Mat4.ndc (p : Mat4) (x y : ℚ) : ℚ × ℚ :=
  let c := p.mulVec ⟨x, y, 0, 1⟩
  (c.x / c.w, c.y / c.w)

/-- One image level of a texture, as given to `glTexImage2D`. -/
structure TexImage where
  internalFormat : PixelFormat
  width : Int
  height : Int
  border : Int
  format : PixelFormat
  type : PixelType
  pixels : List Nat
  deriving DecidableEq

/-- A texture object: its dimensionality, parameters and image levels. -/
structure TexObj where
  target : TexTarget
  magFilter : TexFilter
  minFilter : TexFilter
  wrapS : TexWrap
  wrapT : TexWrap
  images : List (Nat × TexImage)
  deriving DecidableEq

/-- The state a texture object has when it is first bound to `target`. -/
def TexObj.fresh (target : TexTarget) : TexObj :=
  match target with
  | .texture2D =>
      { target := .texture2D, magFilter := .linear, minFilter := .nearestMipmapLinear,
        wrapS := .repeat, wrapT := .repeat, images := [] }
  | .textureExternalOES =>
      { target := .textureExternalOES, magFilter := .linear, minFilter := .linear,
        wrapS := .clampToEdge, wrapT := .clampToEdge, images := [] }

/-- Arguments of `glVertexPointer` / `glTexCoordPointer` (the type is always
`GL_FLOAT` in the engine). -/
structure ArrayPointer where
  size : Int
  stride : Int
  pointer : Nat
  deriving DecidableEq

/-- The texture-environment state of the (single) texture unit. -/
structure TexEnv where
  envMode : TexEnvMode
  combineRGB : CombineFn
  combineAlpha : CombineFn
  src0RGB : CombineSrc
  src1RGB : CombineSrc
  operand0RGB : RGBOperand
  operand1RGB : RGBOperand
  src0Alpha : CombineSrc
  src1Alpha : CombineSrc
  operand0Alpha : AlphaOperand
  operand1Alpha : AlphaOperand
  envColor : Color
  deriving DecidableEq

/-! ## The GL context -/

/-- The part of the OpenGL ES 1.1 context the engine reads or writes. -/
structure GLState where
  /-- Value the implementation reports for `GL_MAX_TEXTURE_SIZE`. -/
  implMaxTextureSize : Int
  /-- Values the implementation reports for `GL_MAX_VIEWPORT_DIMS`. -/
  implMaxViewportDims : Int × Int
  unpackAlignment : Int
  packAlignment : Int
  vertexArray : Bool
  texCoordArray : Bool
  shadeModel : ShadeModel
  dither : Bool
  cullFace : Bool
  blend : Bool
  texture2D : Bool
  textureExternalOES : Bool
  blendSrc : BlendFactor
  blendDst : BlendFactor
  viewport : Int × Int × Int × Int
  matrixMode : MatrixMode
  modelview : Mat4
  projection : Mat4
  textureMatrix : Mat4
  texEnv : TexEnv
  currentColor : Color
  /-- Name bound to `GL_TEXTURE_2D` (0 is the default texture). -/
  bound2D : Nat
  /-- Name bound to `GL_TEXTURE_EXTERNAL_OES` (0 is the default texture). -/
  boundExternal : Nat
  default2D : TexObj
  defaultExternal : TexObj
  /-- Texture objects by non-zero name. -/
  textures : Nat → Option TexObj
  /-- Names handed out by `glGenTextures`. -/
  genNames : List Nat
  vertexPointer : ArrayPointer
  texCoordPointer : ArrayPointer
  /-- Record of the `glDrawArrays` calls made, oldest first. -/
  drawLog : List (Primitive × Int × Int)
  /-- Record of the `glTexParameterx` calls made, oldest first. -/
  texParamLog : List (TexTarget × TexParam)

/-- Narrowing of a `size_t` value to the 32-bit signed `GLsizei`/`GLint`. -/
def toGLsizei (n : Nat) : Int :=
  if n % 2 ^ 32 < 2 ^ 31 then ((n % 2 ^ 32 : Nat) : Int) else ((n % 2 ^ 32 : Nat) : Int) - 2 ^ 32

/-- Narrowing of a `size_t` value to the 32-bit unsigned `GLuint`. -/
def toGLuint (n : Nat) : Nat := n % 2 ^ 32

/-- The call `glGetIntegerv(GL_MAX_TEXTURE_SIZE, out)`: the value written. -/
def glGetMaxTextureSize (s : GLState) : Int := s.implMaxTextureSize

/-- The call `glGetIntegerv(GL_MAX_VIEWPORT_DIMS, out)`: the two values written. -/
def glGetMaxViewportDims (s : GLState) : Int × Int := s.implMaxViewportDims

/-- The call `glPixelStorei`: alignments other than 1, 2, 4, 8 are rejected. -/
def glPixelStorei (p : PixelStore) (v : Int) (s : GLState) : GLState :=
  if v = 1 ∨ v = 2 ∨ v = 4 ∨ v = 8 then
    match p with
    | .unpackAlignment => { s with unpackAlignment := v }
    | .packAlignment => { s with packAlignment := v }
  else s

/-- The call `glEnableClientState`. -/
def glEnableClientState (a : ClientArray) (s : GLState) : GLState :=
  match a with
  | .vertexArray => { s with vertexArray := true }
  | .texCoordArray => { s with texCoordArray := true }

/-- The call `glDisableClientState`. -/
def glDisableClientState (a : ClientArray) (s : GLState) : GLState :=
  match a with
  | .vertexArray => { s with vertexArray := false }
  | .texCoordArray => { s with texCoordArray := false }

/-- The call `glShadeModel`. -/
def glShadeModel (m : ShadeModel) (s : GLState) : GLState := { s with shadeModel := m }

/-- Set one capability flag; shared by `glEnable` and `glDisable`. -/
def GLState.setCap (c : Cap) (v : Bool) (s : GLState) : GLState :=
  match c with
  | .blend => { s with blend := v }
  | .dither => { s with dither := v }
  | .cullFace => { s with cullFace := v }
  | .texture2D => { s with texture2D := v }
  | .textureExternalOES => { s with textureExternalOES := v }

/-- The call `glEnable`. -/
def glEnable (c : Cap) (s : GLState) : GLState := s.setCap c true

/-- The call `glDisable`. -/
def glDisable (c : Cap) (s : GLState) : GLState := s.setCap c false

/-- The call `glBlendFunc`. -/
def glBlendFunc (src dst : BlendFactor) (s : GLState) : GLState :=
  { s with blendSrc := src, blendDst := dst }

/-- The call `glColor4f`. -/
def glColor4f (r g b a : ℚ) (s : GLState) : GLState :=
  { s with currentColor := ⟨r, g, b, a⟩ }

/-- The call `glViewport`: a negative width or height is `GL_INVALID_VALUE`
and leaves the viewport as it was; otherwise width and height are clamped to
the implementation's `GL_MAX_VIEWPORT_DIMS` when they are set. -/
def glViewport (x y w h : Int) (s : GLState) : GLState :=
  if w < 0 ∨ h < 0 then s
  else
    { s with
      viewport := (x, y, min w s.implMaxViewportDims.1, min h s.implMaxViewportDims.2) }

/-- The call `glMatrixMode`. -/
def glMatrixMode (m : MatrixMode) (s : GLState) : GLState := { s with matrixMode := m }

/-- The matrix selected by the current matrix mode. -/
def GLState.currentMatrix (s : GLState) : Mat4 :=
  match s.matrixMode with
  | .modelview => s.modelview
  | .projection => s.projection
  | .texture => s.textureMatrix

/-- Replace the matrix selected by the current matrix mode. -/
def GLState.setCurrentMatrix (m : Mat4) (s : GLState) : GLState :=
  match s.matrixMode with
  | .modelview => { s with modelview := m }
  | .projection => { s with projection := m }
  | .texture => { s with textureMatrix := m }

/-- The call `glLoadIdentity`. -/
def glLoadIdentity (s : GLState) : GLState := s.setCurrentMatrix Mat4.identity

/-- The call `glLoadMatrixf`. -/
def glLoadMatrixf (m : Mat4) (s : GLState) : GLState := s.setCurrentMatrix m

/-- The call `glOrthof`: multiplies the current matrix by the orthographic
matrix; `GL_INVALID_VALUE` (no effect) when `l = r`, `b = t` or `n = f`. -/
def glOrthof (l r b t n f : ℚ) (s : GLState) : GLState :=
  if l = r ∨ b = t ∨ n = f then s
  else s.setCurrentMatrix (s.currentMatrix.mul (Mat4.ortho l r b t n f))

/-- The call `glTexEnvi(GL_TEXTURE_ENV, pname, param)`. -/
def glTexEnvi (p : TexEnvParam) (s : GLState) : GLState :=
  match p with
  | .envMode m => { s with texEnv := { s.texEnv with envMode := m } }
  | .combineRGB f => { s with texEnv := { s.texEnv with combineRGB := f } }
  | .combineAlpha f => { s with texEnv := { s.texEnv with combineAlpha := f } }
  | .src0RGB c => { s with texEnv := { s.texEnv with src0RGB := c } }
  | .src1RGB c => { s with texEnv := { s.texEnv with src1RGB := c } }
  | .operand0RGB o => { s with texEnv := { s.texEnv with operand0RGB := o } }
  | .operand1RGB o => { s with texEnv := { s.texEnv with operand1RGB := o } }
  | .src0Alpha c => { s with texEnv := { s.texEnv with src0Alpha := c } }
  | .src1Alpha c => { s with texEnv := { s.texEnv with src1Alpha := c } }
  | .operand0Alpha o => { s with texEnv := { s.texEnv with operand0Alpha := o } }
  | .operand1Alpha o => { s with texEnv := { s.texEnv with operand1Alpha := o } }

/-- The call `glTexEnvfv(GL_TEXTURE_ENV, GL_TEXTURE_ENV_COLOR, c)`: the four
components are clamped to `[0, 1]` when they are set. -/
def glTexEnvfvColor (c : Color) (s : GLState) : GLState :=
  { s with
    texEnv :=
      { s.texEnv with envColor := ⟨clamp01 c.r, clamp01 c.g, clamp01 c.b, clamp01 c.a⟩ } }

/-- The call `glGenTextures(1, out)`; `name` is the unused name the
implementation hands out. Returns the name written and the new context. -/
def glGenTextures1 (name : Nat) (s : GLState) : Nat × GLState :=
  (name, { s with genNames := s.genNames ++ [name] })

/-- A name `glGenTextures` may hand out: non-zero, with no texture object and
bound to no target. -/
def GLState.nameUnused (s : GLState) (n : Nat) : Prop :=
  n ≠ 0 ∧ s.textures n = none ∧ s.bound2D ≠ n ∧ s.boundExternal ≠ n

/-- Record `n` as the name bound to `target`. -/
def GLState.setBinding (target : TexTarget) (n : Nat) (s : GLState) : GLState :=
  match target with
  | .texture2D => { s with bound2D := n }
  | .textureExternalOES => { s with boundExternal := n }

/-- The name currently bound to `target`. -/
def GLState.binding (target : TexTarget) (s : GLState) : Nat :=
  match target with
  | .texture2D => s.bound2D
  | .textureExternalOES => s.boundExternal

/-- The call `glBindTexture`. Name 0 selects the default texture of the
target; an unused name acquires a new object of the target's dimensionality;
binding an object created for the other target is `GL_INVALID_OPERATION` and
changes nothing. -/
def glBindTexture (target : TexTarget) (name : Nat) (s : GLState) : GLState :=
  if name = 0 then s.setBinding target 0
  else
    match s.textures name with
    | none =>
        ({ s with textures := Function.update s.textures name (some (TexObj.fresh target)) }).setBinding
          target name
    | some t => if t.target = target then s.setBinding target name else s

/-- Apply `f` to the texture object currently bound to `target`. -/
def GLState.modifyBound (target : TexTarget) (f : TexObj → TexObj) (s : GLState) : GLState :=
  if s.binding target = 0 then
    match target with
    | .texture2D => { s with default2D := f s.default2D }
    | .textureExternalOES => { s with defaultExternal := f s.defaultExternal }
  else
    match s.textures (s.binding target) with
    | none => s
    | some t => { s with textures := Function.update s.textures (s.binding target) (some (f t)) }

/-- Set one parameter of a texture object. -/
def TexObj.setParam (p : TexParam) (t : TexObj) : TexObj :=
  match p with
  | .magFilter f => { t with magFilter := f }
  | .minFilter f => { t with minFilter := f }
  | .wrapS m => { t with wrapS := m }
  | .wrapT m => { t with wrapT := m }

/-- The call `glTexParameterx(target, pname, param)`: acts on the object bound
to `target`. -/
def glTexParameterx (target : TexTarget) (p : TexParam) (s : GLState) : GLState :=
  let s1 := s.modifyBound target (TexObj.setParam p)
  { s1 with texParamLog := s1.texParamLog ++ [(target, p)] }

/-- The call `glTexImage2D(target, level, ...)`: defines one image level of
the object bound to `GL_TEXTURE_2D`; the external target takes no image this
way (`GL_INVALID_ENUM`). -/
def glTexImage2D (target : TexTarget) (level : Nat) (img : TexImage) (s : GLState) : GLState :=
  match target with
  | .texture2D =>
      s.modifyBound .texture2D fun t =>
        { t with images := (level, img) :: t.images.filter fun e => e.1 ≠ level }
  | .textureExternalOES => s

/-- The call `glVertexPointer(size, GL_FLOAT, stride, pointer)`. -/
def glVertexPointer (size stride : Int) (pointer : Nat) (s : GLState) : GLState :=
  { s with vertexPointer := ⟨size, stride, pointer⟩ }

/-- The call `glTexCoordPointer(size, GL_FLOAT, stride, pointer)`. -/
def glTexCoordPointer (size stride : Int) (pointer : Nat) (s : GLState) : GLState :=
  { s with texCoordPointer := ⟨size, stride, pointer⟩ }

/-- The call `glDrawArrays(mode, first, count)`: the framebuffer is not part of
the model, the call is recorded. -/
def glDrawArrays (mode : Primitive) (first count : Int) (s : GLState) : GLState :=
  { s with drawLog := s.drawLog ++ [(mode, first, count)] }

/-! ## Texture-environment evaluation (GL_COMBINE)

The colour a fragment leaves the texture unit with, as OpenGL ES 1.1 defines
it for `GL_TEXTURE_ENV_MODE = GL_COMBINE` with the scale factors at their
initial value 1 (the engine never sets them). -/

/-- The colour a combiner source stands for: `GL_TEXTURE` is the sampled texel,
`GL_CONSTANT` the environment colour, `GL_PRIMARY_COLOR` the incoming fragment
colour and `GL_PREVIOUS`, on the first unit, the incoming fragment colour too. -/
def TexEnv.source (e : TexEnv) (c : CombineSrc) (tex frag : Color) : Color :=
  match c with
  | .texture => tex
  | .constant => e.envColor
  | .primaryColor => frag
  | .previous => frag

/-- An RGB argument: the operand applied to a source colour. -/
def RGBOperand.eval (o : RGBOperand) (c : Color) : ℚ × ℚ × ℚ :=
  match o with
  | .srcColor => (c.r, c.g, c.b)
  | .oneMinusSrcColor => (1 - c.r, 1 - c.g, 1 - c.b)
  | .srcAlpha => (c.a, c.a, c.a)
  | .oneMinusSrcAlpha => (1 - c.a, 1 - c.a, 1 - c.a)

/-- An alpha argument: the operand applied to a source colour. -/
def AlphaOperand.eval (o : AlphaOperand) (c : Color) : ℚ :=
  match o with
  | .srcAlpha => c.a
  | .oneMinusSrcAlpha => 1 - c.a

/-- A combine function on one channel: `GL_REPLACE` is `Arg0`, `GL_MODULATE`
is `Arg0 * Arg1`. -/
def CombineFn.eval (f : CombineFn) (arg0 arg1 : ℚ) : ℚ :=
  match f with
  | .replace => arg0
  | .modulate => arg0 * arg1
  | .add => arg0 + arg1
  | .addSigned => arg0 + arg1 - 1 / 2
  | .subtract => arg0 - arg1

/-- Output colour of the texture unit for a texel `tex` and an incoming
fragment colour `frag`; `none` when the environment mode is not `GL_COMBINE`. -/
def TexEnv.output (e : TexEnv) (tex frag : Color) : Option Color :=
  if e.envMode = .combine then
    let a0 := e.operand0RGB.eval (e.source e.src0RGB tex frag)
    let a1 := e.operand1RGB.eval (e.source e.src1RGB tex frag)
    let b0 := e.operand0Alpha.eval (e.source e.src0Alpha tex frag)
    let b1 := e.operand1Alpha.eval (e.source e.src1Alpha tex frag)
    some ⟨e.combineRGB.eval a0.1 a1.1, e.combineRGB.eval a0.2.1 a1.2.1,
          e.combineRGB.eval a0.2.2 a1.2.2, e.combineAlpha.eval b0 b1⟩
  else none

/-- The context right after creation, per the initial values of OpenGL ES 1.1;
the implementation limits and the window size are parameters. -/
def GLState.initial (maxTex : Int) (maxVp : Int × Int) (winW winH : Int) : GLState :=
  { implMaxTextureSize := maxTex
    implMaxViewportDims := maxVp
    unpackAlignment := 4
    packAlignment := 4
    vertexArray := false
    texCoordArray := false
    shadeModel := .smooth
    dither := true
    cullFace := false
    blend := false
    texture2D := false
    textureExternalOES := false
    blendSrc := .one
    blendDst := .zero
    viewport := (0, 0, winW, winH)
    matrixMode := .modelview
    modelview := Mat4.identity
    projection := Mat4.identity
    textureMatrix := Mat4.identity
    texEnv :=
      { envMode := .modulate, combineRGB := .modulate, combineAlpha := .modulate,
        src0RGB := .texture, src1RGB := .previous,
        operand0RGB := .srcColor, operand1RGB := .srcColor,
        src0Alpha := .texture, src1Alpha := .previous,
        operand0Alpha := .srcAlpha, operand1Alpha := .srcAlpha,
        envColor := ⟨0, 0, 0, 0⟩ }
    currentColor := ⟨1, 1, 1, 1⟩
    bound2D := 0
    boundExternal := 0
    default2D := TexObj.fresh .texture2D
    defaultExternal := TexObj.fresh .textureExternalOES
    textures := fun _ => none
    genNames := []
    vertexPointer := ⟨4, 0, 0⟩
    texCoordPointer := ⟨4, 0, 0⟩
    drawLog := []
    texParamLog := [] }

/-! ## Collaborators of the engine -/

/-- What the getters of a `Mesh` return (`Mesh.h` is consumed as an isOpaque
input by the engine). -/
structure Mesh where
  getVertexSize : Nat
  getTexCoordsSize : Nat
  getByteStride : Nat
  getVertexCount : Nat
  getPrimitive : Primitive
  getVertices : Nat
  getTexCoords : Nat
  deriving DecidableEq

/-- What the getters of the `GLExtensions` singleton return. -/
structure GLExtensions where
  getVendor : String
  getRenderer : String
  getVersion : String
  getExtension : String
  deriving DecidableEq

/-! ## The engine -/

/-- The member variables of `GLES11RenderEngine`. -/
structure GLES11RenderEngine where
  mMaxTextureSize : Int
  mMaxViewportDims : Int × Int
  mProtectedTexName : Nat
  deriving DecidableEq

/-- The engine object together with the GL context it drives. -/
structure World where
  engine : GLES11RenderEngine
  gl : GLState

namespace GLES11RenderEngine

/-- The local functor `pack565` of the constructor; the result is a `uint16_t`. -/
def pack565 (r g b : Nat) : Nat := ((r <<< 11) ||| (g <<< 5) ||| b) % 2 ^ 16

/-- The constructor `GLES11RenderEngine::GLES11RenderEngine()`, run on the
context `g`; `name` is the texture name `glGenTextures` hands out. -/
def construct (name : Nat) (g : GLState) : World :=
  let mMaxTextureSize := glGetMaxTextureSize g
  let mMaxViewportDims := glGetMaxViewportDims g
  let g := glPixelStorei .unpackAlignment 4 g
  let g := glPixelStorei .packAlignment 4 g
  let g := glEnableClientState .vertexArray g
  let g := glShadeModel .flat g
  let g := glDisable .dither g
  let g := glDisable .cullFace g
  let protTexData := [pack565 0x03 0x03 0x03]
  let r := glGenTextures1 name g
  let mProtectedTexName := r.1
  let g := r.2
  let g := glBindTexture .texture2D mProtectedTexName g
  let g := glTexParameterx .texture2D (.magFilter .nearest) g
  let g := glTexParameterx .texture2D (.minFilter .nearest) g
  let g := glTexParameterx .texture2D (.wrapS .repeat) g
  let g := glTexParameterx .texture2D (.wrapT .repeat) g
  let g := glTexImage2D .texture2D 0 ⟨.rgb, 1, 1, 0, .rgb, .unsignedShort565, protTexData⟩ g
  ⟨⟨mMaxTextureSize, mMaxViewportDims, mProtectedTexName⟩, g⟩

/-- The method `getMaxTextureSize`: the field, read (the `size_t` result is
the field's value for the non-negative sizes GL reports). -/
def getMaxTextureSize (s : World) : Int := s.engine.mMaxTextureSize

/-- The method `getMaxViewportDims`: the smaller of the two dimensions. -/
def getMaxViewportDims (s : World) : Int :=
  if s.engine.mMaxViewportDims.1 < s.engine.mMaxViewportDims.2 then
    s.engine.mMaxViewportDims.1
  else s.engine.mMaxViewportDims.2

/-- The method `setViewportAndProjection`. -/
def setViewportAndProjection (vpw vph w h : Nat) (yswap : Bool) (s : World) : World :=
  let g := glViewport 0 0 (toGLsizei vpw) (toGLsizei vph) s.gl
  let g := glMatrixMode .projection g
  let g := glLoadIdentity g
  -- put the origin in the left-bottom corner
  let g :=
    if yswap then glOrthof 0 (GLfloat.ofNat w) (GLfloat.ofNat h) 0 0 1 g
    else glOrthof 0 (GLfloat.ofNat w) 0 (GLfloat.ofNat h) 0 1 g
  let g := glMatrixMode .modelview g
  { s with gl := g }

/-- The locals `combineRGB`, `combineAlpha`, `src0Alpha`, `envColor[0]` that
`setupLayerBlending` computes first. -/
structure BlendLocals where
  combineRGB : CombineFn
  combineAlpha : CombineFn
  src0Alpha : CombineSrc
  envColor0 : ℚ

/-- The first `if` of `setupLayerBlending`; `isOpaque` is the source's parameter
`opaque`. -/
def blendLocals (premultipliedAlpha isOpaque : Bool) (alpha : Int) : BlendLocals :=
  if alpha < 0xFF then
    -- Cv = premultiplied ? Cs*alpha : Cs
    -- Av = !opaque       ? As*alpha : As
    { combineRGB := if premultipliedAlpha then .modulate else .replace
      combineAlpha := if !isOpaque then .modulate else .replace
      src0Alpha := .constant
      envColor0 := GLfloat.mul (GLfloat.ofInt alpha) (GLfloat.div 1 255) }
  else
    -- Cv = Cs
    -- Av = opaque ? 1.0 : As
    { combineRGB := .replace
      combineAlpha := .replace
      src0Alpha := if isOpaque then .constant else .texture
      envColor0 := 1 }

/-- The method `setupLayerBlending`. -/
def setupLayerBlending (premultipliedAlpha isOpaque : Bool) (alpha : Int) (s : World) : World :=
  let l := blendLocals premultipliedAlpha isOpaque alpha
  let g := glTexEnvi (.envMode .combine) s.gl
  let g := glTexEnvi (.combineRGB l.combineRGB) g
  let g := glTexEnvi (.src0RGB .texture) g
  let g := glTexEnvi (.operand0RGB .srcColor) g
  let g :=
    if l.combineRGB = .modulate then
      glTexEnvi (.operand1RGB .srcColor) (glTexEnvi (.src1RGB .constant) g)
    else g
  let g := glTexEnvi (.combineAlpha l.combineAlpha) g
  let g := glTexEnvi (.src0Alpha l.src0Alpha) g
  let g := glTexEnvi (.operand0Alpha .srcAlpha) g
  let g :=
    if l.combineAlpha = .modulate then
      glTexEnvi (.operand1Alpha .srcAlpha) (glTexEnvi (.src1Alpha .texture) g)
    else g
  let g :=
    if l.combineRGB = .modulate ∨ l.src0Alpha = .constant then
      glTexEnvfvColor ⟨l.envColor0, l.envColor0, l.envColor0, l.envColor0⟩ g
    else g
  let g :=
    if alpha < 0xFF ∨ !isOpaque then
      glBlendFunc (if premultipliedAlpha then .one else .srcAlpha) .oneMinusSrcAlpha
        (glEnable .blend g)
    else glDisable .blend g
  { s with gl := g }

/-- The method `setupDimLayerBlending`. -/
def setupDimLayerBlending (alpha : Int) (s : World) : World :=
  let g := glDisable .textureExternalOES s.gl
  let g := glDisable .texture2D g
  let g :=
    if alpha = 0xFF then glDisable .blend g
    else glBlendFunc .one .oneMinusSrcAlpha (glEnable .blend g)
  let g := glColor4f 0 0 0 (GLfloat.div (GLfloat.ofInt alpha) 255) g
  { s with gl := g }

/-- The method `setupLayerTexturing`. -/
def setupLayerTexturing (textureName : Nat) (useFiltering : Bool) (textureMatrix : Mat4)
    (s : World) : World :=
  let g := glBindTexture .textureExternalOES (toGLuint textureName) s.gl
  let filter : TexFilter := if useFiltering then .linear else .nearest
  let g := glTexParameterx .textureExternalOES (.wrapS .clampToEdge) g
  let g := glTexParameterx .textureExternalOES (.wrapT .clampToEdge) g
  let g := glTexParameterx .textureExternalOES (.magFilter filter) g
  let g := glTexParameterx .textureExternalOES (.minFilter filter) g
  let g := glMatrixMode .texture g
  let g := glLoadMatrixf textureMatrix g
  let g := glMatrixMode .modelview g
  let g := glDisable .texture2D g
  let g := glEnable .textureExternalOES g
  { s with gl := g }

/-- The method `setupLayerBlackedOut`. -/
def setupLayerBlackedOut (s : World) : World :=
  let g := glBindTexture .texture2D s.engine.mProtectedTexName s.gl
  let g := glMatrixMode .texture g
  let g := glLoadIdentity g
  let g := glMatrixMode .modelview g
  let g := glDisable .textureExternalOES g
  let g := glEnable .texture2D g
  { s with gl := g }

/-- The method `disableTexturing`. -/
def disableTexturing (s : World) : World :=
  let g := glDisable .textureExternalOES s.gl
  let g := glDisable .texture2D g
  { s with gl := g }

/-- The method `disableBlending`. -/
def disableBlending (s : World) : World :=
  { s with gl := glDisable .blend s.gl }

/-- The method `fillWithColor`. -/
def fillWithColor (mesh : Mesh) (r g b a : ℚ) (s : World) : World :=
  let gl := glColor4f r g b a s.gl
  let gl := glDisable .textureExternalOES gl
  let gl := glDisable .texture2D gl
  let gl := glDisable .blend gl
  let gl := glVertexPointer (toGLsizei mesh.getVertexSize) (toGLsizei mesh.getByteStride)
    mesh.getVertices gl
  let gl := glDrawArrays mesh.getPrimitive 0 (toGLsizei mesh.getVertexCount) gl
  { s with gl := gl }

/-- The method `drawMesh`. -/
def drawMesh (mesh : Mesh) (s : World) : World :=
  let g := s.gl
  let g :=
    if mesh.getTexCoordsSize ≠ 0 then
      glTexCoordPointer (toGLsizei mesh.getTexCoordsSize) (toGLsizei mesh.getByteStride)
        mesh.getTexCoords (glEnableClientState .texCoordArray g)
    else g
  let g := glVertexPointer (toGLsizei mesh.getVertexSize) (toGLsizei mesh.getByteStride)
    mesh.getVertices g
  let g := glDrawArrays mesh.getPrimitive 0 (toGLsizei mesh.getVertexCount) g
  let g := if mesh.getTexCoordsSize ≠ 0 then glDisableClientState .texCoordArray g else g
  { s with gl := g }

/-- The method `dump`: the text appended to `result`. -/
def dump (extensions : GLExtensions) (result : String) : String :=
  let result := result ++ "GLES: " ++ extensions.getVendor ++ ", " ++ extensions.getRenderer
    ++ ", " ++ extensions.getVersion ++ "\n"
  result ++ extensions.getExtension ++ "\n"

end GLES11RenderEngine

/-! ## Sequences of operations -/

/-- One call of a method of the engine other than the constructor, with its
arguments. -/
inductive Op where
  | getMaxTextureSize
  | getMaxViewportDims
  | setViewportAndProjection (vpw vph w h : Nat) (yswap : Bool)
  | setupLayerBlending (premultipliedAlpha isOpaque : Bool) (alpha : Int)
  | setupDimLayerBlending (alpha : Int)
  | setupLayerTexturing (textureName : Nat) (useFiltering : Bool) (textureMatrix : Mat4)
  | setupLayerBlackedOut
  | disableTexturing
  | disableBlending
  | fillWithColor (mesh : Mesh) (r g b a : ℚ)
  | drawMesh (mesh : Mesh)
  | dump (extensions : GLExtensions) (result : String)

/-- The engine and context after one call. The getters and `dump` return a
value and leave both as they were. -/
def Op.apply (op : Op) (s : World) : World :=
  match op with
  | .getMaxTextureSize => s
  | .getMaxViewportDims => s
  | .setViewportAndProjection vpw vph w h yswap =>
      GLES11RenderEngine.setViewportAndProjection vpw vph w h yswap s
  | .setupLayerBlending p o a => GLES11RenderEngine.setupLayerBlending p o a s
  | .setupDimLayerBlending a => GLES11RenderEngine.setupDimLayerBlending a s
  | .setupLayerTexturing n f m => GLES11RenderEngine.setupLayerTexturing n f m s
  | .setupLayerBlackedOut => GLES11RenderEngine.setupLayerBlackedOut s
  | .disableTexturing => GLES11RenderEngine.disableTexturing s
  | .disableBlending => GLES11RenderEngine.disableBlending s
  | .fillWithColor mesh r g b a => GLES11RenderEngine.fillWithColor mesh r g b a s
  | .drawMesh mesh => GLES11RenderEngine.drawMesh mesh s
  | .dump _ _ => s

/-- The engine and context after a sequence of calls, first call first. -/
def runOps (ops : List Op) (s : World) : World :=
  ops.foldl (fun acc op => op.apply acc) s

/-! ## Predicates and concrete states used in the statements -/

/-- A concrete context and engine: the constructor run on a fresh context
whose implementation hands out texture name 1. -/
def World.start : World :=
  GLES11RenderEngine.construct 1 (GLState.initial 4096 (4096, 4096) 1280 720)

/-- The value `setupLayerBlending` leaves in each channel of the environment
colour when `alpha < 0xFF`: the `GLfloat` product `alpha * (1.0f / 255.0f)`,
clamped to `[0, 1]` by `glTexEnvfv`. -/
def planeAlpha (alpha : Int) : ℚ :=
  clamp01 (GLfloat.mul (GLfloat.ofInt alpha) (GLfloat.div 1 255))

/-- The placeholder texture `p` is a 2D texture object and is not the name
bound to the external target. -/
def PlaceholderInv (p : Nat) (g : GLState) : Prop :=
  p ≠ 0 ∧ g.boundExternal ≠ p ∧ ∃ t, g.textures p = some t ∧ t.target = TexTarget.texture2D

/-- The two texture-target enable flags, `(GL_TEXTURE_2D, GL_TEXTURE_EXTERNAL_OES)`. -/
def texFlags (s : World) : Bool × Bool := (s.gl.texture2D, s.gl.textureExternalOES)

/-- At most one of the two texture targets is enabled. -/
def GLState.atMostOneTexTarget (g : GLState) : Prop :=
  ¬ (g.texture2D = true ∧ g.textureExternalOES = true)

/-- The operations that enable or disable a texture target. -/
def Op.setsTexTargets : Op → Bool
  | .setupLayerTexturing _ _ _ => true
  | .setupLayerBlackedOut => true
  | .disableTexturing => true
  | .setupDimLayerBlending _ => true
  | .fillWithColor _ _ _ _ _ => true
  | _ => false

/-! # Theorems -/

/-! ## Blend state of `setupLayerBlending` and `setupDimLayerBlending` -/

open GLES11RenderEngine

/-- C1: after `setupLayerBlending(premultipliedAlpha, opaque, alpha)`, `GL_BLEND`
is enabled exactly when `alpha < 0xFF` or `opaque` is false; when enabled the
blend function is `(GL_ONE, GL_ONE_MINUS_SRC_ALPHA)` for premultiplied alpha and
`(GL_SRC_ALPHA, GL_ONE_MINUS_SRC_ALPHA)` otherwise; when disabled the blend
function is the one set before the call. -/
theorem setupLayerBlending_blend (premultipliedAlpha isOpaque : Bool) (alpha : Int) (s : World) :
    ((setupLayerBlending premultipliedAlpha isOpaque alpha s).gl.blend = true ↔
      (alpha < 0xFF ∨ isOpaque = false)) ∧
    ((setupLayerBlending premultipliedAlpha isOpaque alpha s).gl.blend = true →
      (setupLayerBlending premultipliedAlpha isOpaque alpha s).gl.blendSrc =
        (if premultipliedAlpha = true then BlendFactor.one else BlendFactor.srcAlpha) ∧
      (setupLayerBlending premultipliedAlpha isOpaque alpha s).gl.blendDst =
        BlendFactor.oneMinusSrcAlpha) ∧
    ((setupLayerBlending premultipliedAlpha isOpaque alpha s).gl.blend = false →
      (setupLayerBlending premultipliedAlpha isOpaque alpha s).gl.blendSrc = s.gl.blendSrc ∧
      (setupLayerBlending premultipliedAlpha isOpaque alpha s).gl.blendDst = s.gl.blendDst) := by
  by_cases h : alpha < 0xFF <;> cases premultipliedAlpha <;> cases isOpaque <;>
    simp [setupLayerBlending, blendLocals, h, glTexEnvi, glTexEnvfvColor, glEnable, glDisable,
      glBlendFunc, GLState.setCap]

/-! ## `GLfloat` values the engine computes -/

/-- The halving loop finds the position of the leading bit. -/
theorem log2Fuel_spec (fuel n : Nat) (hf : n ≤ fuel) (hn : 0 < n) :
    2 ^ log2Fuel fuel n ≤ n ∧ n < 2 ^ (log2Fuel fuel n + 1) := by
  induction fuel generalizing n with
  | zero => omega
  | succ fuel ih =>
      unfold log2Fuel
      by_cases h2 : n < 2
      · simp [h2]; omega
      · simp only [h2, if_false]
        have hpos : 0 < n / 2 := Nat.div_pos (by omega) (by decide)
        have hle : n / 2 ≤ fuel := by omega
        obtain ⟨a, b⟩ := ih (n / 2) hle hpos
        constructor
        · rw [pow_succ]; omega
        · rw [pow_succ]; omega

/-- Rounding an integer leaves it as it is. -/
theorem roundHalfEven_one (a : Nat) : roundHalfEven a 1 = a := by
  simp [roundHalfEven, Nat.mod_one]

/-- Every `size_t` up to `2^24` is exactly representable as `GLfloat`. -/
theorem GLfloat.ofNat_of_le (n : Nat) (h : n ≤ 2 ^ 24) : GLfloat.ofNat n = (n : ℚ) := by
  rcases Nat.eq_zero_or_pos n with h0 | hpos
  · subst h0; simp [GLfloat.ofNat, GLfloat.round]
  rcases Nat.lt_or_ge n (2 ^ 24) with hlt | hge
  swap
  · have : n = 16777216 := by omega
    subst this
    decide!
  obtain ⟨a, b⟩ := log2Fuel_spec n n le_rfl hpos
  have he : ilog2 n ≤ 23 := by
    by_contra hc
    have : 2 ^ 24 ≤ 2 ^ ilog2 n := Nat.pow_le_pow_right (by decide) (by omega)
    unfold ilog2 at this
    omega
  have h1 : ilog2 1 = 0 := by decide
  have hb : binade n 1 = (ilog2 n : Int) := by
    unfold binade
    rw [h1]
    have : 2 ^ ilog2 n * 1 ≤ n * 2 ^ 0 := by simpa [ilog2] using a
    rw [if_pos this]
    simp
  have hn0 : ((n : ℚ)).num ≠ 0 := by simp; omega
  unfold GLfloat.ofNat GLfloat.round
  simp only [Rat.num_natCast, Rat.den_natCast, Int.natAbs_ofNat, hb]
  have hk : max (ilog2 n : Int) (-126) - 23 = (ilog2 n : Int) - 23 := by
    rw [max_eq_left (by omega)]
  simp only [hk]
  have hne : ¬ ((n : Int) = 0) := by omega
  have hnn : ¬ ((n : Int) < 0) := by omega
  simp only [hne, hnn, if_false]
  by_cases hk0 : (0 : Int) ≤ (ilog2 n : Int) - 23
  · have e23 : ((ilog2 n : Int) - 23).toNat = 0 := by omega
    simp [hk0, e23, roundHalfEven_one]
  · have hpos2 : ((2 ^ (-((ilog2 n : Int) - 23)).toNat : Nat) : ℚ) ≠ 0 := by positivity
    simp only [hk0, if_false, roundHalfEven_one]
    rw [Nat.cast_mul]
    field_simp

/-- The constant `1.0f / 255.0f`. -/
theorem GLfloat.div_one_255 : GLfloat.div 1 255 = 8421505 / 2147483648 := by decide!

/-- Rounding keeps the sign: a value that is not positive rounds to one that is
not positive. -/
theorem GLfloat.round_nonpos (q : ℚ) (h : q ≤ 0) : GLfloat.round q ≤ 0 := by
  unfold GLfloat.round
  by_cases h0 : q.num = 0
  · simp [h0]
  · have hneg : q.num < 0 := lt_of_le_of_ne (Rat.num_nonpos.mpr h) h0
    simp only [h0, if_false, hneg, if_true]
    rw [neg_nonpos]
    split
    · exact Nat.cast_nonneg _
    · exact div_nonneg (Nat.cast_nonneg _) (Nat.cast_nonneg _)

/-- Clamping the value 1. -/
theorem clamp01_one : clamp01 1 = 1 := by simp [clamp01]

/-- Clamping a value that is not positive. -/
theorem clamp01_of_nonpos (q : ℚ) (h : q ≤ 0) : clamp01 q = 0 := by
  unfold clamp01
  exact max_eq_left ((min_le_left q 1).trans h)

/-- The plane alpha uploaded for a negative or zero `alpha` is 0. -/
theorem planeAlpha_of_nonpos (alpha : Int) (h : alpha ≤ 0) : planeAlpha alpha = 0 := by
  unfold planeAlpha
  apply clamp01_of_nonpos
  unfold GLfloat.mul
  apply GLfloat.round_nonpos
  rw [GLfloat.div_one_255]
  have h1 : GLfloat.ofInt alpha ≤ 0 :=
    GLfloat.round_nonpos _ (by exact_mod_cast h)
  exact mul_nonpos_of_nonpos_of_nonneg h1 (by norm_num)

/-- The plane alpha uploaded for `alpha` in 0..254 is within `2^-23` of
`alpha/255`, checked value by value. -/
theorem planeAlpha_near_nat :
    ∀ n : Nat, n < 255 → |planeAlpha (n : Int) - (n : ℚ) / 255| < 1 / 2 ^ 23 := by
  decide!

/-- The plane alpha uploaded for `0 ≤ alpha < 0xFF` is within `2^-23` of
`alpha/255`. -/
theorem planeAlpha_near (alpha : Int) (h0 : 0 ≤ alpha) (h : alpha < 0xFF) :
    |planeAlpha alpha - (alpha : ℚ) / 255| < 1 / 2 ^ 23 := by
  obtain ⟨n, rfl⟩ := Int.eq_ofNat_of_zero_le h0
  have hn : n < 255 := by omega
  simpa using planeAlpha_near_nat n hn

/-- The quotient `alpha / 255.0f` for `alpha` in 0..255 is within `2^-25` of
`alpha/255`, checked value by value. -/
theorem dimAlpha_near_nat :
    ∀ n : Nat, n < 256 →
      |GLfloat.div (GLfloat.ofInt (n : Int)) 255 - (n : ℚ) / 255| ≤ 1 / 2 ^ 25 := by
  decide!

/-- Concrete values of the plane alpha and of the dim-layer alpha. -/
theorem GLfloat.samples :
    planeAlpha 128 = 8421505 / 16777216 ∧
    planeAlpha 51 = 6710887 / 33554432 ∧
    planeAlpha (-255) = 0 ∧
    GLfloat.div (GLfloat.ofInt 128) 255 = 8421505 / 16777216 ∧
    GLfloat.ofNat 1280 = 1280 ∧
    GLfloat.ofNat 720 = 720 ∧
    GLfloat.ofNat 16777217 = 16777216 := by
  decide!

/-- C7 (as amended): after `setupDimLayerBlending(alpha)` both texture targets
are disabled, the current colour is black with alpha component the `GLfloat`
quotient `alpha / 255.0f`, which for `0 ≤ alpha ≤ 255` is within `2^-25` of
`alpha/255`; `GL_BLEND` is disabled exactly when `alpha == 0xFF`, and for every
other alpha it is enabled with blend function
`(GL_ONE, GL_ONE_MINUS_SRC_ALPHA)`. -/
theorem setupDimLayerBlending_state (alpha : Int) (s : World) :
    (setupDimLayerBlending alpha s).gl.texture2D = false ∧
    (setupDimLayerBlending alpha s).gl.textureExternalOES = false ∧
    (setupDimLayerBlending alpha s).gl.currentColor =
      ⟨0, 0, 0, GLfloat.div (GLfloat.ofInt alpha) 255⟩ ∧
    (0 ≤ alpha → alpha ≤ 0xFF →
      |(setupDimLayerBlending alpha s).gl.currentColor.a - (alpha : ℚ) / 255| ≤ 1 / 2 ^ 25) ∧
    ((setupDimLayerBlending alpha s).gl.blend = false ↔ alpha = 0xFF) ∧
    (alpha ≠ 0xFF →
      (setupDimLayerBlending alpha s).gl.blend = true ∧
      (setupDimLayerBlending alpha s).gl.blendSrc = BlendFactor.one ∧
      (setupDimLayerBlending alpha s).gl.blendDst = BlendFactor.oneMinusSrcAlpha) := by
  have hc : (setupDimLayerBlending alpha s).gl.currentColor =
      ⟨0, 0, 0, GLfloat.div (GLfloat.ofInt alpha) 255⟩ := by
    by_cases h : alpha = 0xFF <;>
      simp [setupDimLayerBlending, h, glEnable, glDisable, glBlendFunc, glColor4f,
        GLState.setCap]
  refine ⟨?_, ?_, hc, ?_, ?_, ?_⟩
  · by_cases h : alpha = 0xFF <;>
      simp [setupDimLayerBlending, h, glEnable, glDisable, glBlendFunc, glColor4f,
        GLState.setCap]
  · by_cases h : alpha = 0xFF <;>
      simp [setupDimLayerBlending, h, glEnable, glDisable, glBlendFunc, glColor4f,
        GLState.setCap]
  · intro h0 h1
    rw [hc]
    obtain ⟨n, rfl⟩ := Int.eq_ofNat_of_zero_le h0
    have hn : n < 256 := by omega
    simpa using dimAlpha_near_nat n hn
  · by_cases h : alpha = 0xFF <;>
      simp [setupDimLayerBlending, h, glEnable, glDisable, glBlendFunc, glColor4f,
        GLState.setCap]
  · intro h
    simp [setupDimLayerBlending, h, glEnable, glDisable, glBlendFunc, glColor4f,
      GLState.setCap]

/-- C7 (the claim as stated fails): at `alpha = 128` the alpha component of the
current colour is the binary32 value 8421505/16777216, not 128/255. -/
theorem setupDimLayerBlending_counterexample :
    (setupDimLayerBlending 128 World.start).gl.currentColor =
      ⟨0, 0, 0, 8421505 / 16777216⟩ ∧
    (⟨0, 0, 0, 8421505 / 16777216⟩ : Color) ≠ ⟨0, 0, 0, ((128 : Int) : ℚ) / 255⟩ := by
  refine ⟨?_, ?_⟩
  · simp [setupDimLayerBlending, glEnable, glDisable, glBlendFunc, glColor4f, GLState.setCap,
      GLfloat.samples]
  · intro h
    have := congrArg Color.a h
    norm_num at this

/-! ## Texture environment left by `setupLayerBlending` -/

/-- What the texture unit outputs after `setupLayerBlending` with
`alpha < 0xFF`, for every earlier state. -/
theorem setupLayerBlending_output_lt (premultipliedAlpha isOpaque : Bool) (alpha : Int)
    (h : alpha < 0xFF) (s : World) (tex frag : Color) :
    (setupLayerBlending premultipliedAlpha isOpaque alpha s).gl.texEnv.output tex frag =
      some ⟨if premultipliedAlpha = true then tex.r * planeAlpha alpha else tex.r,
            if premultipliedAlpha = true then tex.g * planeAlpha alpha else tex.g,
            if premultipliedAlpha = true then tex.b * planeAlpha alpha else tex.b,
            if isOpaque = true then planeAlpha alpha else tex.a * planeAlpha alpha⟩ := by
  cases premultipliedAlpha <;> cases isOpaque <;>
    simp [setupLayerBlending, blendLocals, h, glTexEnvi, glTexEnvfvColor, glEnable, glDisable,
      glBlendFunc, GLState.setCap, TexEnv.output, TexEnv.source, RGBOperand.eval,
      AlphaOperand.eval, CombineFn.eval, planeAlpha, mul_comm]

/-- C2 (evaluation of the code where it departs from the claim): with
`opaque = true` and `alpha = 128 < 0xFF` the alpha combiner is `GL_REPLACE` on
`GL_CONSTANT`, so a texel of alpha 1/2 leaves the unit with the plane alpha,
the binary32 value 8421505/16777216 of `128 * (1.0f / 255.0f)`, and not with
the texel's alpha `As = 1/2`. -/
theorem setupLayerBlending_opaque_alpha_is_constant :
    ((setupLayerBlending false true 128 World.start).gl.texEnv.output
        ⟨1 / 4, 1 / 2, 3 / 4, 1 / 2⟩ ⟨1, 1, 1, 1⟩).map Color.a =
      some (8421505 / 16777216) ∧
    (setupLayerBlending false true 128 World.start).gl.texEnv.combineAlpha = CombineFn.replace ∧
    (setupLayerBlending false true 128 World.start).gl.texEnv.src0Alpha = CombineSrc.constant ∧
    (8421505 / 16777216 : ℚ) ≠ 1 / 2 := by
  refine ⟨?_, ?_, ?_, by norm_num⟩
  · rw [setupLayerBlending_output_lt false true 128 (by decide)]
    simp [GLfloat.samples]
  · simp [setupLayerBlending, blendLocals, glTexEnvi, glTexEnvfvColor, glEnable, glDisable,
      glBlendFunc, GLState.setCap]
  · simp [setupLayerBlending, blendLocals, glTexEnvi, glTexEnvfvColor, glEnable, glDisable,
      glBlendFunc, GLState.setCap]

/-- C3 (as amended): for `alpha < 0xFF` the texture unit outputs `Cv = Cs * c`
in R, G and B when `premultipliedAlpha` is true and `Cv = Cs` when it is false,
whatever the texture environment (sources, operands, colour) was before; `c` is
the environment colour the call uploads, the `GLfloat` product
`alpha * (1.0f / 255.0f)` clamped to `[0, 1]`: it is within `2^-23` of
`alpha/255` for `0 ≤ alpha`, and it is 0 for `alpha ≤ 0`. -/
theorem setupLayerBlending_rgb_lt (premultipliedAlpha isOpaque : Bool) (alpha : Int)
    (h : alpha < 0xFF) (s : World) (tex frag : Color) :
    ((setupLayerBlending premultipliedAlpha isOpaque alpha s).gl.texEnv.output tex frag).map
        (fun c => (c.r, c.g, c.b)) =
      some (if premultipliedAlpha = true then
              (tex.r * planeAlpha alpha, tex.g * planeAlpha alpha, tex.b * planeAlpha alpha)
            else (tex.r, tex.g, tex.b)) ∧
    (0 ≤ alpha → |planeAlpha alpha - (alpha : ℚ) / 255| < 1 / 2 ^ 23) ∧
    (alpha ≤ 0 → planeAlpha alpha = 0) := by
  refine ⟨?_, fun h0 => planeAlpha_near alpha h0 h, planeAlpha_of_nonpos alpha⟩
  rw [setupLayerBlending_output_lt premultipliedAlpha isOpaque alpha h]
  cases premultipliedAlpha <;> simp

/-- C3 (as amended) at a concrete input: alpha 51, premultiplied, on the
constructed engine. -/
theorem setupLayerBlending_rgb_lt_witness :
    (51 : Int) < 0xFF ∧
    (((setupLayerBlending true false 51 World.start).gl.texEnv.output
        ⟨1, 1 / 2, 0, 1⟩ ⟨1, 1, 1, 1⟩).map (fun c => (c.r, c.g, c.b)) =
      some (if true = true then
              ((1 : ℚ) * planeAlpha 51, (1 / 2 : ℚ) * planeAlpha 51, (0 : ℚ) * planeAlpha 51)
            else ((1 : ℚ), (1 / 2 : ℚ), (0 : ℚ))) ∧
    ((0 : Int) ≤ 51 → |planeAlpha 51 - ((51 : Int) : ℚ) / 255| < 1 / 2 ^ 23) ∧
    ((51 : Int) ≤ 0 → planeAlpha 51 = 0)) :=
  ⟨by decide,
   setupLayerBlending_rgb_lt true false 51 (by decide) World.start ⟨1, 1 / 2, 0, 1⟩ ⟨1, 1, 1, 1⟩⟩

/-- C3 (the claim as stated fails): premultiplied, with a texel colour
`(1, 1/2, 0)`: at `alpha = 51` the unit outputs red 6710887/33554432, the
binary32 value of `51 * (1.0f / 255.0f)`, not `1 * (51/255) = 1/5`; at
`alpha = -255` the environment colour is clamped to 0 and the unit outputs
`(0, 0, 0)`, not `(-1, -1/2, 0)`. -/
theorem setupLayerBlending_rgb_counterexample :
    (((setupLayerBlending true false 51 World.start).gl.texEnv.output
        ⟨1, 1 / 2, 0, 1⟩ ⟨1, 1, 1, 1⟩).map (fun c => (c.r, c.g, c.b)) =
        some (6710887 / 33554432, 6710887 / 67108864, 0) ∧
      (6710887 / 33554432 : ℚ) ≠ 1 * (((51 : Int) : ℚ) / 255)) ∧
    (((setupLayerBlending true false (-255) World.start).gl.texEnv.output
        ⟨1, 1 / 2, 0, 1⟩ ⟨1, 1, 1, 1⟩).map (fun c => (c.r, c.g, c.b)) =
        some (0, 0, 0) ∧
      (0 : ℚ) ≠ 1 * (((-255 : Int) : ℚ) / 255)) := by
  refine ⟨⟨?_, by norm_num⟩, ?_, by norm_num⟩
  · rw [setupLayerBlending_output_lt true false 51 (by decide)]
    simp [GLfloat.samples]
    norm_num
  · rw [setupLayerBlending_output_lt true false (-255) (by decide)]
    simp [GLfloat.samples]

/-- C4: for `alpha >= 0xFF` the texture unit outputs `Cv = Cs`, and `Av = 1.0`
when `opaque` is true, `Av = As` when it is false, whatever the texture
environment was before. -/
theorem setupLayerBlending_output_ge (premultipliedAlpha isOpaque : Bool) (alpha : Int)
    (h : 0xFF ≤ alpha) (s : World) (tex frag : Color) :
    (setupLayerBlending premultipliedAlpha isOpaque alpha s).gl.texEnv.output tex frag =
      some ⟨tex.r, tex.g, tex.b, if isOpaque = true then 1 else tex.a⟩ := by
  have h' : ¬ alpha < 0xFF := not_lt.mpr h
  cases premultipliedAlpha <;> cases isOpaque <;>
    simp [setupLayerBlending, blendLocals, h', glTexEnvi, glTexEnvfvColor, glEnable, glDisable,
      glBlendFunc, GLState.setCap, TexEnv.output, TexEnv.source, RGBOperand.eval,
      AlphaOperand.eval, CombineFn.eval, clamp01_one]

/-- C4 at a concrete input: alpha 255, opaque, on the constructed engine. -/
theorem setupLayerBlending_output_ge_witness :
    (0xFF : Int) ≤ 255 ∧
    (setupLayerBlending false true 255 World.start).gl.texEnv.output
        ⟨1 / 4, 1 / 2, 3 / 4, 1 / 2⟩ ⟨1, 1, 1, 1⟩ =
      some ⟨1 / 4, 1 / 2, 3 / 4, if true = true then 1 else 1 / 2⟩ :=
  ⟨by decide,
   setupLayerBlending_output_ge false true 255 (by decide) World.start
     ⟨1 / 4, 1 / 2, 3 / 4, 1 / 2⟩ ⟨1, 1, 1, 1⟩⟩

/-! ## Viewport and projection -/

/-- A `size_t` below `2^31` is passed to GL unchanged. -/
theorem toGLsizei_of_lt (n : Nat) (h : n < 2 ^ 31) : toGLsizei n = (n : Int) := by
  have h2 : n % 2 ^ 32 = n := Nat.mod_eq_of_lt (by omega)
  have h3 : n % 2 ^ 32 < 2 ^ 31 := by omega
  unfold toGLsizei
  rw [if_pos h3, h2]

/-- Multiplying the identity by a matrix gives that matrix. -/
theorem Mat4.identity_mul (m : Mat4) : Mat4.identity.mul m = m := by
  ext <;> simp [Mat4.mul, Mat4.mulVec, Mat4.identity, Vec4.add, Vec4.smul]

/-- The limits and the viewport of the context of `World.start`. -/
theorem start_viewport :
    World.start.gl.implMaxViewportDims = (4096, 4096) ∧
    World.start.gl.viewport = (0, 0, 1280, 720) := by
  simp [World.start, construct, GLState.initial, glPixelStorei, glEnableClientState,
    glShadeModel, glDisable, GLState.setCap, glGenTextures1, glBindTexture, glTexParameterx,
    glTexImage2D, GLState.modifyBound, GLState.setBinding, GLState.binding]

/-- Replacing the current matrix keeps the viewport. -/
theorem setCurrentMatrix_viewport (m : Mat4) (s : GLState) :
    (s.setCurrentMatrix m).viewport = s.viewport := by
  unfold GLState.setCurrentMatrix
  split <;> rfl

/-- The call `glOrthof` keeps the viewport. -/
theorem glOrthof_viewport (l r b t n f : ℚ) (s : GLState) :
    (glOrthof l r b t n f s).viewport = s.viewport := by
  unfold glOrthof
  split <;> simp [setCurrentMatrix_viewport]

/-- The viewport `setViewportAndProjection` leaves is the one its `glViewport`
call leaves. -/
theorem setViewportAndProjection_viewport (vpw vph w h : Nat) (yswap : Bool) (s : World) :
    (setViewportAndProjection vpw vph w h yswap s).gl.viewport =
      (glViewport 0 0 (toGLsizei vpw) (toGLsizei vph) s.gl).viewport := by
  cases yswap <;>
  simp [setViewportAndProjection, glMatrixMode, glLoadIdentity, glOrthof_viewport,
    setCurrentMatrix_viewport]

/-- The projection matrix `setViewportAndProjection` leaves, in terms of the
`GLfloat` values of `w` and `h`. -/
theorem setViewportAndProjection_projection (vpw vph w h : Nat) (yswap : Bool) (s : World)
    (hw : GLfloat.ofNat w ≠ 0) (hh : GLfloat.ofNat h ≠ 0) :
    (setViewportAndProjection vpw vph w h yswap s).gl.projection =
      (if yswap = true then Mat4.ortho 0 (GLfloat.ofNat w) (GLfloat.ofNat h) 0 0 1
        else Mat4.ortho 0 (GLfloat.ofNat w) 0 (GLfloat.ofNat h) 0 1) := by
  cases yswap <;>
  simp [setViewportAndProjection, glMatrixMode, glLoadIdentity, glOrthof,
    GLState.setCurrentMatrix, GLState.currentMatrix, Ne.symm hw, hh, Ne.symm hh,
    Mat4.identity_mul]

/-- Where the two orthographic matrices of `setViewportAndProjection` send the
corners `(0, 0)` and `(r, t)`. -/
theorem ortho_ndc (r t : ℚ) (hr : r ≠ 0) (ht : t ≠ 0) :
    (Mat4.ortho 0 r 0 t 0 1).ndc 0 0 = (-1, -1) ∧
    (Mat4.ortho 0 r 0 t 0 1).ndc r t = (1, 1) ∧
    (Mat4.ortho 0 r t 0 0 1).ndc 0 0 = (-1, 1) ∧
    (Mat4.ortho 0 r t 0 0 1).ndc r t = (1, -1) := by
  refine ⟨?_, ?_, ?_, ?_⟩ <;>
  simp [Mat4.ndc, Mat4.ortho, Mat4.mulVec, Vec4.add, Vec4.smul, div_neg] <;>
  constructor <;> field_simp <;> ring

/-- C5 (as amended): for `vpw`, `vph` below `2^31` and within the
implementation's `GL_MAX_VIEWPORT_DIMS`, and `w > 0`, `h > 0` exactly
representable as `GLfloat` (as every value up to `2^24` is,
`GLfloat.ofNat_of_le`), `setViewportAndProjection` sets the viewport to
`(0, 0, vpw, vph)` and replaces the projection matrix by an orthographic
projection; with `yswap` false the origin is in the left-bottom corner,
`(0, 0)` going to `(-1, -1)` and `(w, h)` to `(+1, +1)`; with `yswap` true the
y axis is flipped, `(0, 0)` going to `(-1, +1)` and `(w, h)` to `(+1, -1)`. -/
theorem setViewportAndProjection_ortho (vpw vph w h : Nat) (yswap : Bool) (s : World)
    (hvpw : vpw < 2 ^ 31) (hvph : vph < 2 ^ 31)
    (hmw : (vpw : Int) ≤ s.gl.implMaxViewportDims.1)
    (hmh : (vph : Int) ≤ s.gl.implMaxViewportDims.2)
    (hw : 0 < w) (hh : 0 < h)
    (hfw : GLfloat.ofNat w = (w : ℚ)) (hfh : GLfloat.ofNat h = (h : ℚ)) :
    (setViewportAndProjection vpw vph w h yswap s).gl.viewport =
      (0, 0, (vpw : Int), (vph : Int)) ∧
    (setViewportAndProjection vpw vph w h yswap s).gl.projection =
      (if yswap = true then Mat4.ortho 0 w h 0 0 1 else Mat4.ortho 0 w 0 h 0 1) ∧
    (setViewportAndProjection vpw vph w h yswap s).gl.projection.ndc 0 0 =
      (-1, if yswap = true then 1 else -1) ∧
    (setViewportAndProjection vpw vph w h yswap s).gl.projection.ndc w h =
      (1, if yswap = true then -1 else 1) := by
  have hw' : (w : ℚ) ≠ 0 := by positivity
  have hh' : (h : ℚ) ≠ 0 := by positivity
  have hp := setViewportAndProjection_projection vpw vph w h yswap s
    (by rw [hfw]; exact hw') (by rw [hfh]; exact hh')
  rw [hfw, hfh] at hp
  obtain ⟨a, b, c, d⟩ := ortho_ndc w h hw' hh'
  have n1 : ¬ ((vpw : Int) < 0 ∨ (vph : Int) < 0) := by omega
  refine ⟨?_, hp, ?_, ?_⟩
  · rw [setViewportAndProjection_viewport, toGLsizei_of_lt vpw hvpw, toGLsizei_of_lt vph hvph]
    simp [glViewport, n1, hmw, hmh]
  · rw [hp]; cases yswap <;> simp [a, c]
  · rw [hp]; cases yswap <;> simp [b, d]

/-- C5 (as amended) at a concrete input: a 1280 x 720 display, `yswap` set. -/
theorem setViewportAndProjection_ortho_witness :
    (1280 < 2 ^ 31 ∧ 720 < 2 ^ 31 ∧
      ((1280 : Nat) : Int) ≤ World.start.gl.implMaxViewportDims.1 ∧
      ((720 : Nat) : Int) ≤ World.start.gl.implMaxViewportDims.2 ∧
      0 < 1280 ∧ 0 < 720 ∧
      GLfloat.ofNat 1280 = ((1280 : Nat) : ℚ) ∧ GLfloat.ofNat 720 = ((720 : Nat) : ℚ)) ∧
    ((setViewportAndProjection 1280 720 1280 720 true World.start).gl.viewport =
      (0, 0, ((1280 : Nat) : Int), ((720 : Nat) : Int)) ∧
    (setViewportAndProjection 1280 720 1280 720 true World.start).gl.projection =
      (if true = true then Mat4.ortho 0 (1280 : Nat) (720 : Nat) 0 0 1
        else Mat4.ortho 0 (1280 : Nat) 0 (720 : Nat) 0 1) ∧
    (setViewportAndProjection 1280 720 1280 720 true World.start).gl.projection.ndc 0 0 =
      (-1, if true = true then 1 else -1) ∧
    (setViewportAndProjection 1280 720 1280 720 true World.start).gl.projection.ndc
        (1280 : Nat) (720 : Nat) =
      (1, if true = true then -1 else 1)) :=
  ⟨⟨by decide, by decide, by simp [start_viewport], by simp [start_viewport], by decide,
      by decide, by simp [GLfloat.samples], by simp [GLfloat.samples]⟩,
   setViewportAndProjection_ortho 1280 720 1280 720 true World.start (by decide) (by decide)
     (by simp [start_viewport]) (by simp [start_viewport]) (by decide) (by decide)
     (by simp [GLfloat.samples]) (by simp [GLfloat.samples])⟩

/-- C5 (the claim as stated fails), on the constructed engine, whose context
has a 1280 x 720 viewport and a viewport limit of 4096 x 4096. With `yswap`
set, `w = 1280`, `h = 720`, the projection sends `(0, 0)` to `(-1, +1)` and
`(w, h)` to `(+1, -1)`, not to `(-1, -1)` and `(+1, +1)`. A `vpw` of `2^31`
reaches `glViewport` as a negative width, so the viewport stays as it was. A
viewport of 100000 x 100000 is clamped to the limit. A `w` of `2^24 + 1`
reaches `glOrthof` as the `GLfloat` `2^24`, so `(w, h)` is sent to
`(8388609/8388608, 1)`, not to `(+1, +1)`. -/
theorem setViewportAndProjection_counterexample :
    ((setViewportAndProjection 1280 720 1280 720 true World.start).gl.projection.ndc 0 0 =
        (-1, 1) ∧
      (setViewportAndProjection 1280 720 1280 720 true World.start).gl.projection.ndc
        (1280 : Nat) (720 : Nat) = (1, -1) ∧
      ((-1 : ℚ), (1 : ℚ)) ≠ (-1, -1) ∧ ((1 : ℚ), (-1 : ℚ)) ≠ (1, 1)) ∧
    ((setViewportAndProjection (2 ^ 31) 720 1280 720 false World.start).gl.viewport =
        (0, 0, 1280, 720) ∧
      ((0, 0, 1280, 720) : Int × Int × Int × Int) ≠ (0, 0, ((2 ^ 31 : Nat) : Int), 720)) ∧
    ((setViewportAndProjection 100000 100000 1280 720 false World.start).gl.viewport =
        (0, 0, 4096, 4096) ∧
      ((0, 0, 4096, 4096) : Int × Int × Int × Int) ≠
        (0, 0, ((100000 : Nat) : Int), ((100000 : Nat) : Int))) ∧
    ((setViewportAndProjection 1280 720 16777217 720 false World.start).gl.projection.ndc
        (16777217 : Nat) (720 : Nat) = (8388609 / 8388608, 1) ∧
      ((8388609 / 8388608 : ℚ), (1 : ℚ)) ≠ (1, 1)) := by
  have hp := setViewportAndProjection_projection 1280 720 1280 720 true World.start
    (by simp [GLfloat.samples]) (by simp [GLfloat.samples])
  have hq := setViewportAndProjection_projection 1280 720 16777217 720 false World.start
    (by simp [GLfloat.samples]) (by simp [GLfloat.samples])
  simp only [GLfloat.samples] at hp hq
  obtain ⟨_, _, c, d⟩ := ortho_ndc 1280 720 (by norm_num) (by norm_num)
  refine ⟨⟨?_, ?_, by norm_num, by norm_num⟩, ⟨?_, by norm_num⟩, ⟨?_, by norm_num⟩,
    ?_, by norm_num⟩
  · rw [hp]; simpa using c
  · rw [hp]; simpa using d
  · rw [setViewportAndProjection_viewport]
    simp [glViewport, toGLsizei, start_viewport]
  · rw [setViewportAndProjection_viewport]
    simp [glViewport, toGLsizei, start_viewport]
  · rw [hq]
    simp [Mat4.ndc, Mat4.ortho, Mat4.mulVec, Vec4.add, Vec4.smul]
    norm_num

/-! ## Frame lemmas -/

theorem glViewport_frame (x y w h : Int) (s : GLState) :
    (glViewport x y w h s).matrixMode = s.matrixMode ∧
    (glViewport x y w h s).modelview = s.modelview ∧
    (glViewport x y w h s).texture2D = s.texture2D ∧
    (glViewport x y w h s).textureExternalOES = s.textureExternalOES ∧
    (glViewport x y w h s).textures = s.textures ∧
    (glViewport x y w h s).boundExternal = s.boundExternal ∧
    (glViewport x y w h s).texParamLog = s.texParamLog := by
  unfold glViewport
  split <;> simp

/-- What replacing the current matrix leaves untouched. -/
theorem setCurrentMatrix_frame (m : Mat4) (s : GLState) :
    (s.setCurrentMatrix m).matrixMode = s.matrixMode ∧
    (s.setCurrentMatrix m).texture2D = s.texture2D ∧
    (s.setCurrentMatrix m).textureExternalOES = s.textureExternalOES ∧
    (s.setCurrentMatrix m).textures = s.textures ∧
    (s.setCurrentMatrix m).boundExternal = s.boundExternal ∧
    (s.setCurrentMatrix m).texParamLog = s.texParamLog := by
  unfold GLState.setCurrentMatrix
  split <;> simp

/-- Replacing the current matrix in another mode keeps the model-view matrix. -/
theorem setCurrentMatrix_modelview (m : Mat4) (s : GLState) (h : s.matrixMode ≠ .modelview) :
    (s.setCurrentMatrix m).modelview = s.modelview := by
  unfold GLState.setCurrentMatrix
  split <;> simp_all

/-- What `glOrthof` leaves untouched. -/
theorem glOrthof_frame (l r b t n f : ℚ) (s : GLState) :
    (glOrthof l r b t n f s).matrixMode = s.matrixMode ∧
    (glOrthof l r b t n f s).texture2D = s.texture2D ∧
    (glOrthof l r b t n f s).textureExternalOES = s.textureExternalOES ∧
    (glOrthof l r b t n f s).textures = s.textures ∧
    (glOrthof l r b t n f s).boundExternal = s.boundExternal ∧
    (glOrthof l r b t n f s).texParamLog = s.texParamLog := by
  unfold glOrthof
  split <;> simp [setCurrentMatrix_frame]

/-- In another mode `glOrthof` keeps the model-view matrix. -/
theorem glOrthof_modelview (l r b t n f : ℚ) (s : GLState) (h : s.matrixMode ≠ .modelview) :
    (glOrthof l r b t n f s).modelview = s.modelview := by
  unfold glOrthof
  split <;> simp [setCurrentMatrix_modelview, h]

/-- What recording a binding leaves untouched. -/
theorem setBinding_frame (target : TexTarget) (n : Nat) (s : GLState) :
    (s.setBinding target n).matrixMode = s.matrixMode ∧
    (s.setBinding target n).modelview = s.modelview ∧
    (s.setBinding target n).texture2D = s.texture2D ∧
    (s.setBinding target n).textureExternalOES = s.textureExternalOES ∧
    (s.setBinding target n).textures = s.textures ∧
    (s.setBinding target n).texParamLog = s.texParamLog := by
  cases target <;> simp [GLState.setBinding]

/-- What `glBindTexture` leaves untouched. -/
theorem glBindTexture_frame (target : TexTarget) (n : Nat) (s : GLState) :
    (glBindTexture target n s).matrixMode = s.matrixMode ∧
    (glBindTexture target n s).modelview = s.modelview ∧
    (glBindTexture target n s).texture2D = s.texture2D ∧
    (glBindTexture target n s).textureExternalOES = s.textureExternalOES ∧
    (glBindTexture target n s).texParamLog = s.texParamLog := by
  unfold glBindTexture
  split
  · simp [setBinding_frame]
  · split
    · simp [setBinding_frame]
    · split <;> simp [setBinding_frame]

/-- What a change to the bound texture object leaves untouched. -/
theorem modifyBound_frame (target : TexTarget) (f : TexObj → TexObj) (s : GLState) :
    (s.modifyBound target f).matrixMode = s.matrixMode ∧
    (s.modifyBound target f).modelview = s.modelview ∧
    (s.modifyBound target f).texture2D = s.texture2D ∧
    (s.modifyBound target f).textureExternalOES = s.textureExternalOES ∧
    (s.modifyBound target f).boundExternal = s.boundExternal ∧
    (s.modifyBound target f).bound2D = s.bound2D ∧
    (s.modifyBound target f).texParamLog = s.texParamLog := by
  unfold GLState.modifyBound
  split
  · cases target <;> simp
  · split <;> simp

/-- What `glTexParameterx` leaves untouched, and the call it records. -/
theorem glTexParameterx_frame (target : TexTarget) (p : TexParam) (s : GLState) :
    (glTexParameterx target p s).matrixMode = s.matrixMode ∧
    (glTexParameterx target p s).modelview = s.modelview ∧
    (glTexParameterx target p s).texture2D = s.texture2D ∧
    (glTexParameterx target p s).textureExternalOES = s.textureExternalOES ∧
    (glTexParameterx target p s).boundExternal = s.boundExternal ∧
    (glTexParameterx target p s).bound2D = s.bound2D ∧
    (glTexParameterx target p s).texParamLog = s.texParamLog ++ [(target, p)] := by
  simp [glTexParameterx, modifyBound_frame]

/-- What `glTexImage2D` leaves untouched. -/
theorem glTexImage2D_frame (target : TexTarget) (level : Nat) (img : TexImage) (s : GLState) :
    (glTexImage2D target level img s).matrixMode = s.matrixMode ∧
    (glTexImage2D target level img s).modelview = s.modelview ∧
    (glTexImage2D target level img s).texture2D = s.texture2D ∧
    (glTexImage2D target level img s).textureExternalOES = s.textureExternalOES ∧
    (glTexImage2D target level img s).boundExternal = s.boundExternal ∧
    (glTexImage2D target level img s).bound2D = s.bound2D ∧
    (glTexImage2D target level img s).texParamLog = s.texParamLog := by
  cases target <;> simp [glTexImage2D, modifyBound_frame]


/-- Effect of `setViewportAndProjection` on the tracked fields. -/
theorem setViewportAndProjection_frame (vpw vph w h : Nat) (yswap : Bool) (s : World) :
    (setViewportAndProjection vpw vph w h yswap s).engine = s.engine ∧
    (setViewportAndProjection vpw vph w h yswap s).gl.matrixMode = .modelview ∧
    (setViewportAndProjection vpw vph w h yswap s).gl.modelview = s.gl.modelview ∧
    (setViewportAndProjection vpw vph w h yswap s).gl.texture2D = s.gl.texture2D ∧
    (setViewportAndProjection vpw vph w h yswap s).gl.textureExternalOES =
      s.gl.textureExternalOES ∧
    (setViewportAndProjection vpw vph w h yswap s).gl.textures = s.gl.textures ∧
    (setViewportAndProjection vpw vph w h yswap s).gl.boundExternal = s.gl.boundExternal ∧
    (setViewportAndProjection vpw vph w h yswap s).gl.texParamLog = s.gl.texParamLog := by
  cases yswap <;>
  simp [setViewportAndProjection, glMatrixMode, glLoadIdentity, glViewport_frame, glOrthof_frame,
    glOrthof_modelview, setCurrentMatrix_frame, setCurrentMatrix_modelview]

/-- Effect of `setupLayerBlending` on the tracked fields. -/
theorem setupLayerBlending_frame (p o : Bool) (alpha : Int) (s : World) :
    (setupLayerBlending p o alpha s).engine = s.engine ∧
    (setupLayerBlending p o alpha s).gl.matrixMode = s.gl.matrixMode ∧
    (setupLayerBlending p o alpha s).gl.modelview = s.gl.modelview ∧
    (setupLayerBlending p o alpha s).gl.texture2D = s.gl.texture2D ∧
    (setupLayerBlending p o alpha s).gl.textureExternalOES = s.gl.textureExternalOES ∧
    (setupLayerBlending p o alpha s).gl.textures = s.gl.textures ∧
    (setupLayerBlending p o alpha s).gl.boundExternal = s.gl.boundExternal ∧
    (setupLayerBlending p o alpha s).gl.texParamLog = s.gl.texParamLog := by
  by_cases h : alpha < 0xFF <;> cases p <;> cases o <;>
    simp [setupLayerBlending, blendLocals, h, glTexEnvi, glTexEnvfvColor, glEnable, glDisable,
      glBlendFunc, GLState.setCap]

/-- Effect of `setupDimLayerBlending` on the tracked fields. -/
theorem setupDimLayerBlending_frame (alpha : Int) (s : World) :
    (setupDimLayerBlending alpha s).engine = s.engine ∧
    (setupDimLayerBlending alpha s).gl.matrixMode = s.gl.matrixMode ∧
    (setupDimLayerBlending alpha s).gl.modelview = s.gl.modelview ∧
    (setupDimLayerBlending alpha s).gl.texture2D = false ∧
    (setupDimLayerBlending alpha s).gl.textureExternalOES = false ∧
    (setupDimLayerBlending alpha s).gl.textures = s.gl.textures ∧
    (setupDimLayerBlending alpha s).gl.boundExternal = s.gl.boundExternal ∧
    (setupDimLayerBlending alpha s).gl.texParamLog = s.gl.texParamLog := by
  by_cases h : alpha = 0xFF <;>
    simp [setupDimLayerBlending, h, glEnable, glDisable, glBlendFunc, glColor4f, GLState.setCap]

/-- Effect of `setupLayerTexturing` on engine, matrix mode and flags. -/
theorem setupLayerTexturing_frame (n : Nat) (f : Bool) (m : Mat4) (s : World) :
    (setupLayerTexturing n f m s).engine = s.engine ∧
    (setupLayerTexturing n f m s).gl.matrixMode = .modelview ∧
    (setupLayerTexturing n f m s).gl.modelview = s.gl.modelview ∧
    (setupLayerTexturing n f m s).gl.texture2D = false ∧
    (setupLayerTexturing n f m s).gl.textureExternalOES = true := by
  simp [setupLayerTexturing, glMatrixMode, glLoadMatrixf, glEnable, glDisable, GLState.setCap,
    setCurrentMatrix_frame, setCurrentMatrix_modelview, glBindTexture_frame,
    glTexParameterx_frame]

/-- Effect of `setupLayerBlackedOut` on engine, matrix mode and flags. -/
theorem setupLayerBlackedOut_frame (s : World) :
    (setupLayerBlackedOut s).engine = s.engine ∧
    (setupLayerBlackedOut s).gl.matrixMode = .modelview ∧
    (setupLayerBlackedOut s).gl.modelview = s.gl.modelview ∧
    (setupLayerBlackedOut s).gl.texture2D = true ∧
    (setupLayerBlackedOut s).gl.textureExternalOES = false ∧
    (setupLayerBlackedOut s).gl.texParamLog = s.gl.texParamLog := by
  simp [setupLayerBlackedOut, glMatrixMode, glLoadIdentity, glEnable, glDisable, GLState.setCap,
    setCurrentMatrix_frame, setCurrentMatrix_modelview, glBindTexture_frame]

/-- Effect of `disableTexturing` on the tracked fields. -/
theorem disableTexturing_frame (s : World) :
    (disableTexturing s).engine = s.engine ∧
    (disableTexturing s).gl.matrixMode = s.gl.matrixMode ∧
    (disableTexturing s).gl.modelview = s.gl.modelview ∧
    (disableTexturing s).gl.texture2D = false ∧
    (disableTexturing s).gl.textureExternalOES = false ∧
    (disableTexturing s).gl.textures = s.gl.textures ∧
    (disableTexturing s).gl.boundExternal = s.gl.boundExternal ∧
    (disableTexturing s).gl.texParamLog = s.gl.texParamLog := by
  simp [disableTexturing, glDisable, GLState.setCap]

/-- Effect of `disableBlending` on the tracked fields. -/
theorem disableBlending_frame (s : World) :
    (disableBlending s).engine = s.engine ∧
    (disableBlending s).gl.matrixMode = s.gl.matrixMode ∧
    (disableBlending s).gl.modelview = s.gl.modelview ∧
    (disableBlending s).gl.texture2D = s.gl.texture2D ∧
    (disableBlending s).gl.textureExternalOES = s.gl.textureExternalOES ∧
    (disableBlending s).gl.textures = s.gl.textures ∧
    (disableBlending s).gl.boundExternal = s.gl.boundExternal ∧
    (disableBlending s).gl.texParamLog = s.gl.texParamLog := by
  simp [disableBlending, glDisable, GLState.setCap]

/-- Effect of `fillWithColor` on the tracked fields. -/
theorem fillWithColor_frame (mesh : Mesh) (r g b a : ℚ) (s : World) :
    (fillWithColor mesh r g b a s).engine = s.engine ∧
    (fillWithColor mesh r g b a s).gl.matrixMode = s.gl.matrixMode ∧
    (fillWithColor mesh r g b a s).gl.modelview = s.gl.modelview ∧
    (fillWithColor mesh r g b a s).gl.texture2D = false ∧
    (fillWithColor mesh r g b a s).gl.textureExternalOES = false ∧
    (fillWithColor mesh r g b a s).gl.textures = s.gl.textures ∧
    (fillWithColor mesh r g b a s).gl.boundExternal = s.gl.boundExternal ∧
    (fillWithColor mesh r g b a s).gl.texParamLog = s.gl.texParamLog := by
  simp [fillWithColor, glColor4f, glDisable, GLState.setCap, glVertexPointer, glDrawArrays]

/-- Effect of `drawMesh` on the tracked fields. -/
theorem drawMesh_frame (mesh : Mesh) (s : World) :
    (drawMesh mesh s).engine = s.engine ∧
    (drawMesh mesh s).gl.matrixMode = s.gl.matrixMode ∧
    (drawMesh mesh s).gl.modelview = s.gl.modelview ∧
    (drawMesh mesh s).gl.texture2D = s.gl.texture2D ∧
    (drawMesh mesh s).gl.textureExternalOES = s.gl.textureExternalOES ∧
    (drawMesh mesh s).gl.textures = s.gl.textures ∧
    (drawMesh mesh s).gl.boundExternal = s.gl.boundExternal ∧
    (drawMesh mesh s).gl.texParamLog = s.gl.texParamLog := by
  by_cases h : mesh.getTexCoordsSize = 0 <;>
    simp [drawMesh, h, glVertexPointer, glTexCoordPointer, glDrawArrays, glEnableClientState,
      glDisableClientState]


/-- The placeholder invariant depends on the texture table and the external binding only. -/
theorem PlaceholderInv.congr {p : Nat} {g g' : GLState} (h : PlaceholderInv p g)
    (ht : g'.textures = g.textures) (hb : g'.boundExternal = g.boundExternal) :
    PlaceholderInv p g' := by
  obtain ⟨h0, h1, t, h2, h3⟩ := h
  exact ⟨h0, by rw [hb]; exact h1, t, by rw [ht]; exact h2, h3⟩

/-- Binding any name to the external target keeps the placeholder and its invariant. -/
theorem glBindTexture_external_placeholder (p n : Nat) (g : GLState) (h : PlaceholderInv p g) :
    PlaceholderInv p (glBindTexture .textureExternalOES n g) ∧
    (glBindTexture .textureExternalOES n g).textures p = g.textures p := by
  obtain ⟨h0, h1, t, h2, h3⟩ := h
  unfold glBindTexture
  split
  · exact ⟨⟨h0, by simpa [GLState.setBinding] using Ne.symm h0, t,
      by simpa [GLState.setBinding] using h2, h3⟩, by simp [GLState.setBinding]⟩
  · rename_i hn
    split
    · rename_i hnone
      have hne : p ≠ n := by
        intro e; rw [e, hnone] at h2; cases h2
      have ht : (Function.update g.textures n (some (TexObj.fresh .textureExternalOES))) p =
          g.textures p := Function.update_noteq hne _ _
      exact ⟨⟨h0, by simpa [GLState.setBinding] using Ne.symm hne, t,
        by simpa [GLState.setBinding, ht] using h2, h3⟩, by simpa [GLState.setBinding] using ht⟩
    · rename_i t' hsome
      split
      · rename_i htgt
        have hne : n ≠ p := by
          intro e; rw [e, h2] at hsome; cases hsome; rw [h3] at htgt; cases htgt
        exact ⟨⟨h0, by simpa [GLState.setBinding] using hne, t,
          by simpa [GLState.setBinding] using h2, h3⟩, by simp [GLState.setBinding]⟩
      · exact ⟨⟨h0, h1, t, h2, h3⟩, rfl⟩

/-- A parameter set on the external target does not reach the placeholder. -/
theorem glTexParameterx_external_placeholder (p : Nat) (q : TexParam) (g : GLState)
    (h : PlaceholderInv p g) :
    PlaceholderInv p (glTexParameterx .textureExternalOES q g) ∧
    (glTexParameterx .textureExternalOES q g).textures p = g.textures p := by
  obtain ⟨h0, h1, t, h2, h3⟩ := h
  have key : (g.modifyBound .textureExternalOES (TexObj.setParam q)).textures p =
      g.textures p := by
    unfold GLState.modifyBound
    split
    · simp
    · split
      · rfl
      · simp only [GLState.binding]
        exact Function.update_noteq (Ne.symm h1) _ _
  have hb : (glTexParameterx .textureExternalOES q g).boundExternal = g.boundExternal :=
    (glTexParameterx_frame _ _ _).2.2.2.2.1
  have ht : (glTexParameterx .textureExternalOES q g).textures p = g.textures p := by
    simpa [glTexParameterx] using key
  exact ⟨⟨h0, by rw [hb]; exact h1, t, by rw [ht]; exact h2, h3⟩, ht⟩

/-- Binding the placeholder to `GL_TEXTURE_2D` changes neither the texture table nor the external binding. -/
theorem glBindTexture_2D_placeholder (p : Nat) (g : GLState) (h : PlaceholderInv p g) :
    (glBindTexture .texture2D p g).textures = g.textures ∧
    (glBindTexture .texture2D p g).boundExternal = g.boundExternal := by
  obtain ⟨h0, _, t, h2, h3⟩ := h
  simp [glBindTexture, h0, h2, h3, GLState.setBinding]

/-- The method `setupLayerTexturing` keeps the placeholder, whatever name it is given. -/
theorem setupLayerTexturing_placeholder (p n : Nat) (f : Bool) (m : Mat4) (s : World)
    (h : PlaceholderInv p s.gl) :
    PlaceholderInv p (setupLayerTexturing n f m s).gl ∧
    (setupLayerTexturing n f m s).gl.textures p = s.gl.textures p ∧
    (setupLayerTexturing n f m s).gl.texParamLog = s.gl.texParamLog ++
      [(TexTarget.textureExternalOES, TexParam.wrapS .clampToEdge),
       (TexTarget.textureExternalOES, TexParam.wrapT .clampToEdge),
       (TexTarget.textureExternalOES, TexParam.magFilter (if f = true then .linear else .nearest)),
       (TexTarget.textureExternalOES, TexParam.minFilter (if f = true then .linear else .nearest))] := by
  have h1 := glBindTexture_external_placeholder p (toGLuint n) s.gl h
  have h2 := glTexParameterx_external_placeholder p (.wrapS .clampToEdge) _ h1.1
  have h3 := glTexParameterx_external_placeholder p (.wrapT .clampToEdge) _ h2.1
  have h4 := glTexParameterx_external_placeholder p
    (.magFilter (if f = true then .linear else .nearest)) _ h3.1
  have h5 := glTexParameterx_external_placeholder p
    (.minFilter (if f = true then .linear else .nearest)) _ h4.1
  refine ⟨?_, ?_, ?_⟩
  · refine h5.1.congr ?_ ?_ <;>
      simp [setupLayerTexturing, glMatrixMode, glLoadMatrixf, glEnable, glDisable,
        GLState.setCap, setCurrentMatrix_frame]
  · have e : (setupLayerTexturing n f m s).gl.textures =
        (glTexParameterx .textureExternalOES (.minFilter (if f = true then .linear else .nearest))
          (glTexParameterx .textureExternalOES
            (.magFilter (if f = true then .linear else .nearest))
            (glTexParameterx .textureExternalOES (.wrapT .clampToEdge)
              (glTexParameterx .textureExternalOES (.wrapS .clampToEdge)
                (glBindTexture .textureExternalOES (toGLuint n) s.gl))))).textures := by
      simp [setupLayerTexturing, glMatrixMode, glLoadMatrixf, glEnable, glDisable,
        GLState.setCap, setCurrentMatrix_frame]
    rw [e, h5.2, h4.2, h3.2, h2.2, h1.2]
  · simp [setupLayerTexturing, glMatrixMode, glLoadMatrixf, glEnable, glDisable,
      GLState.setCap, setCurrentMatrix_frame, glTexParameterx_frame, glBindTexture_frame]

/-- The method `setupLayerBlackedOut` keeps the texture table and the external binding. -/
theorem setupLayerBlackedOut_placeholder (s : World)
    (h : PlaceholderInv s.engine.mProtectedTexName s.gl) :
    (setupLayerBlackedOut s).gl.textures = s.gl.textures ∧
    (setupLayerBlackedOut s).gl.boundExternal = s.gl.boundExternal := by
  have h1 := glBindTexture_2D_placeholder _ _ h
  simp [setupLayerBlackedOut, glMatrixMode, glLoadIdentity, glEnable, glDisable,
    GLState.setCap, setCurrentMatrix_frame, h1]

/-- The one texel of the placeholder. -/
theorem pack565_protected : pack565 0x03 0x03 0x03 = 0x1863 := by decide

/-- The engine fields and the placeholder the constructor leaves. -/
theorem construct_placeholder (name : Nat) (g : GLState) (h : g.nameUnused name) :
    (construct name g).engine = ⟨g.implMaxTextureSize, g.implMaxViewportDims, name⟩ ∧
    (construct name g).gl.textures name =
      some ⟨.texture2D, .nearest, .nearest, .repeat, .repeat,
        [(0, ⟨.rgb, 1, 1, 0, .rgb, .unsignedShort565, [0x1863]⟩)]⟩ ∧
    (construct name g).gl.boundExternal = g.boundExternal ∧
    (construct name g).gl.bound2D = name := by
  obtain ⟨h0, h1, h2, h3⟩ := h
  simp [construct, glGetMaxTextureSize, glGetMaxViewportDims, glPixelStorei, glEnableClientState,
    glShadeModel, glDisable, GLState.setCap, glGenTextures1, glBindTexture, glTexParameterx,
    glTexImage2D, GLState.modifyBound, GLState.setBinding, GLState.binding, h0, h1,
    TexObj.fresh, TexObj.setParam, pack565_protected]


/-! ## Invariants over sequences of operations -/

theorem construct_frame (name : Nat) (g : GLState) :
    (construct name g).gl.matrixMode = g.matrixMode ∧
    (construct name g).gl.modelview = g.modelview ∧
    (construct name g).gl.texture2D = g.texture2D ∧
    (construct name g).gl.textureExternalOES = g.textureExternalOES := by
  simp [construct, glPixelStorei, glEnableClientState, glShadeModel, glDisable, GLState.setCap,
    glGenTextures1, glBindTexture_frame, glTexParameterx_frame, glTexImage2D_frame]

/-- No operation assigns a field of the engine. -/
theorem apply_engine (op : Op) (s : World) : (op.apply s).engine = s.engine := by
  cases op <;>
  simp [Op.apply, setViewportAndProjection_frame, setupLayerBlending_frame,
    setupDimLayerBlending_frame, setupLayerTexturing_frame, setupLayerBlackedOut_frame,
    disableTexturing_frame, disableBlending_frame, fillWithColor_frame, drawMesh_frame]

/-- Effect of one operation on matrix mode and model-view matrix. -/
theorem apply_matrix (op : Op) (s : World) :
    ((op.apply s).gl.matrixMode = .modelview ∨ (op.apply s).gl.matrixMode = s.gl.matrixMode) ∧
    (op.apply s).gl.modelview = s.gl.modelview := by
  cases op <;>
  simp [Op.apply, setViewportAndProjection_frame, setupLayerBlending_frame,
    setupDimLayerBlending_frame, setupLayerTexturing_frame, setupLayerBlackedOut_frame,
    disableTexturing_frame, disableBlending_frame, fillWithColor_frame, drawMesh_frame]

/-- Operations outside the five texturing ones keep both flags. -/
theorem apply_texFlags_other (op : Op) (s : World) (h : op.setsTexTargets = false) :
    texFlags (op.apply s) = texFlags s := by
  cases op <;>
  simp_all [Op.setsTexTargets, texFlags, Op.apply, setViewportAndProjection_frame,
    setupLayerBlending_frame, disableBlending_frame, drawMesh_frame]

/-- One operation keeps the texture targets exclusive. -/
theorem apply_atMostOne (op : Op) (s : World) (h : s.gl.atMostOneTexTarget) :
    (op.apply s).gl.atMostOneTexTarget := by
  unfold GLState.atMostOneTexTarget at *
  cases op <;>
  simp_all [Op.apply, setViewportAndProjection_frame, setupLayerBlending_frame,
    setupDimLayerBlending_frame, setupLayerTexturing_frame, setupLayerBlackedOut_frame,
    disableTexturing_frame, disableBlending_frame, fillWithColor_frame, drawMesh_frame]

/-- A sequence of operations keeps the texture targets exclusive. -/
theorem runOps_atMostOne (ops : List Op) (s : World) (h : s.gl.atMostOneTexTarget) :
    (runOps ops s).gl.atMostOneTexTarget := by
  induction ops generalizing s with
  | nil => exact h
  | cons op rest ih => exact ih (op.apply s) (apply_atMostOne op s h)

/-- One operation keeps the placeholder and logs external-target calls only. -/
theorem apply_placeholder (op : Op) (s : World)
    (h : PlaceholderInv s.engine.mProtectedTexName s.gl) :
    PlaceholderInv s.engine.mProtectedTexName (op.apply s).gl ∧
    (op.apply s).gl.textures s.engine.mProtectedTexName =
      s.gl.textures s.engine.mProtectedTexName ∧
    ∃ l, (op.apply s).gl.texParamLog = s.gl.texParamLog ++ l ∧
      ∀ e ∈ l, e.1 = TexTarget.textureExternalOES := by
  cases op with
  | setupLayerTexturing n f m =>
      obtain ⟨a, b, c⟩ := setupLayerTexturing_placeholder _ n f m s h
      exact ⟨a, b, _, c, by simp⟩
  | setupLayerBlackedOut =>
      obtain ⟨a, b⟩ := setupLayerBlackedOut_placeholder s h
      exact ⟨h.congr a b, by simp [Op.apply, a],
        [], by simp [Op.apply, setupLayerBlackedOut_frame], by simp⟩
  | getMaxTextureSize => exact ⟨h, rfl, [], by simp [Op.apply], by simp⟩
  | getMaxViewportDims => exact ⟨h, rfl, [], by simp [Op.apply], by simp⟩
  | dump _ _ => exact ⟨h, rfl, [], by simp [Op.apply], by simp⟩
  | setViewportAndProjection vpw vph w h' yswap =>
      have f := setViewportAndProjection_frame vpw vph w h' yswap s
      exact ⟨h.congr f.2.2.2.2.2.1 f.2.2.2.2.2.2.1, by simp [Op.apply, f],
        [], by simp [Op.apply, f], by simp⟩
  | setupLayerBlending p o a =>
      have f := setupLayerBlending_frame p o a s
      exact ⟨h.congr f.2.2.2.2.2.1 f.2.2.2.2.2.2.1, by simp [Op.apply, f],
        [], by simp [Op.apply, f], by simp⟩
  | setupDimLayerBlending a =>
      have f := setupDimLayerBlending_frame a s
      exact ⟨h.congr f.2.2.2.2.2.1 f.2.2.2.2.2.2.1, by simp [Op.apply, f],
        [], by simp [Op.apply, f], by simp⟩
  | disableTexturing =>
      have f := disableTexturing_frame s
      exact ⟨h.congr f.2.2.2.2.2.1 f.2.2.2.2.2.2.1, by simp [Op.apply, f],
        [], by simp [Op.apply, f], by simp⟩
  | disableBlending =>
      have f := disableBlending_frame s
      exact ⟨h.congr f.2.2.2.2.2.1 f.2.2.2.2.2.2.1, by simp [Op.apply, f],
        [], by simp [Op.apply, f], by simp⟩
  | fillWithColor mesh r g b a =>
      have f := fillWithColor_frame mesh r g b a s
      exact ⟨h.congr f.2.2.2.2.2.1 f.2.2.2.2.2.2.1, by simp [Op.apply, f],
        [], by simp [Op.apply, f], by simp⟩
  | drawMesh mesh =>
      have f := drawMesh_frame mesh s
      exact ⟨h.congr f.2.2.2.2.2.1 f.2.2.2.2.2.2.1, by simp [Op.apply, f],
        [], by simp [Op.apply, f], by simp⟩

/-- A sequence of operations keeps the engine fields. -/
theorem runOps_engine (ops : List Op) (s : World) : (runOps ops s).engine = s.engine := by
  induction ops generalizing s with
  | nil => rfl
  | cons op rest ih => exact (ih (op.apply s)).trans (apply_engine op s)

/-- A sequence of operations keeps the placeholder and logs external-target calls only. -/
theorem runOps_placeholder (ops : List Op) (s : World)
    (h : PlaceholderInv s.engine.mProtectedTexName s.gl) :
    (runOps ops s).gl.textures s.engine.mProtectedTexName =
      s.gl.textures s.engine.mProtectedTexName ∧
    ∃ l, (runOps ops s).gl.texParamLog = s.gl.texParamLog ++ l ∧
      ∀ e ∈ l, e.1 = TexTarget.textureExternalOES := by
  induction ops generalizing s with
  | nil => exact ⟨rfl, [], by simp [runOps], by simp⟩
  | cons op rest ih =>
      obtain ⟨a, b, l1, c, d⟩ := apply_placeholder op s h
      have he := apply_engine op s
      have a' : PlaceholderInv (op.apply s).engine.mProtectedTexName (op.apply s).gl := by
        rw [he]; exact a
      obtain ⟨b2, l2, c2, d2⟩ := ih (op.apply s) a'
      rw [he] at b2
      refine ⟨b2.trans b, l1 ++ l2, ?_, ?_⟩
      · show (runOps rest (op.apply s)).gl.texParamLog = _
        rw [c2, c, List.append_assoc]
      · intro e he'
        rcases List.mem_append.mp he' with h1 | h1
        · exact d e h1
        · exact d2 e h1

/-! ## Read-only engine state, texture targets, matrix mode -/

/-- C6: the engine's own state is read-only after construction. No operation
other than the constructor changes the fields `mMaxTextureSize`,
`mMaxViewportDims`, `mProtectedTexName`; after the constructor has run on a
context in which the generated name is unused, the placeholder is the 1x1
RGB565 texture with nearest filters and repeat wrap, and after any sequence of
operations, with any arguments, its image and parameters are the same; every
`glTexParameterx` call made after construction targets
`GL_TEXTURE_EXTERNAL_OES`. -/
theorem engine_state_readonly (name : Nat) (g : GLState) (h : g.nameUnused name)
    (ops : List Op) :
    (∀ (op : Op) (s : World), (op.apply s).engine = s.engine) ∧
    (runOps ops (construct name g)).engine = (construct name g).engine ∧
    (construct name g).gl.textures (construct name g).engine.mProtectedTexName =
      some ⟨.texture2D, .nearest, .nearest, .repeat, .repeat,
        [(0, ⟨.rgb, 1, 1, 0, .rgb, .unsignedShort565, [0x1863]⟩)]⟩ ∧
    (runOps ops (construct name g)).gl.textures (construct name g).engine.mProtectedTexName =
      (construct name g).gl.textures (construct name g).engine.mProtectedTexName ∧
    (∃ l, (runOps ops (construct name g)).gl.texParamLog =
        (construct name g).gl.texParamLog ++ l ∧
      ∀ e ∈ l, e.1 = TexTarget.textureExternalOES) := by
  obtain ⟨he, ht, hb, _⟩ := construct_placeholder name g h
  have hn : (construct name g).engine.mProtectedTexName = name := by rw [he]
  have hinv : PlaceholderInv (construct name g).engine.mProtectedTexName (construct name g).gl := by
    rw [hn]
    exact ⟨h.1, by rw [hb]; exact h.2.2.2, _, ht, rfl⟩
  obtain ⟨a, b⟩ := runOps_placeholder ops (construct name g) hinv
  exact ⟨apply_engine, runOps_engine ops _, by rw [hn]; exact ht, a, b⟩

/-- C6 at a concrete input: a fresh context, generated name 1, and a sequence
that passes the placeholder's own name to `setupLayerTexturing`. -/
theorem engine_state_readonly_witness :
    (GLState.initial 4096 (4096, 4096) 1280 720).nameUnused 1 ∧
    ((∀ (op : Op) (s : World), (op.apply s).engine = s.engine) ∧
    (runOps [.setupLayerTexturing 1 true Mat4.identity, .setupLayerBlackedOut,
        .setupLayerTexturing 7 false Mat4.identity, .disableTexturing]
      (construct 1 (GLState.initial 4096 (4096, 4096) 1280 720))).engine =
      (construct 1 (GLState.initial 4096 (4096, 4096) 1280 720)).engine ∧
    (construct 1 (GLState.initial 4096 (4096, 4096) 1280 720)).gl.textures
        (construct 1 (GLState.initial 4096 (4096, 4096) 1280 720)).engine.mProtectedTexName =
      some ⟨.texture2D, .nearest, .nearest, .repeat, .repeat,
        [(0, ⟨.rgb, 1, 1, 0, .rgb, .unsignedShort565, [0x1863]⟩)]⟩ ∧
    (runOps [.setupLayerTexturing 1 true Mat4.identity, .setupLayerBlackedOut,
        .setupLayerTexturing 7 false Mat4.identity, .disableTexturing]
      (construct 1 (GLState.initial 4096 (4096, 4096) 1280 720))).gl.textures
        (construct 1 (GLState.initial 4096 (4096, 4096) 1280 720)).engine.mProtectedTexName =
      (construct 1 (GLState.initial 4096 (4096, 4096) 1280 720)).gl.textures
        (construct 1 (GLState.initial 4096 (4096, 4096) 1280 720)).engine.mProtectedTexName ∧
    (∃ l, (runOps [.setupLayerTexturing 1 true Mat4.identity, .setupLayerBlackedOut,
          .setupLayerTexturing 7 false Mat4.identity, .disableTexturing]
        (construct 1 (GLState.initial 4096 (4096, 4096) 1280 720))).gl.texParamLog =
        (construct 1 (GLState.initial 4096 (4096, 4096) 1280 720)).gl.texParamLog ++ l ∧
      ∀ e ∈ l, e.1 = TexTarget.textureExternalOES)) :=
  ⟨by simp [GLState.nameUnused, GLState.initial],
   engine_state_readonly 1 (GLState.initial 4096 (4096, 4096) 1280 720)
     (by simp [GLState.nameUnused, GLState.initial])
     [.setupLayerTexturing 1 true Mat4.identity, .setupLayerBlackedOut,
       .setupLayerTexturing 7 false Mat4.identity, .disableTexturing]⟩

/-- C8: the two texture targets are never enabled together. From a state with
at most one of `GL_TEXTURE_2D` and `GL_TEXTURE_EXTERNAL_OES` enabled, every
sequence of operations leads to such a state; the constructor leaves both flags
as they were, so on a fresh context it leaves both disabled;
`setupLayerTexturing` leaves only the external target enabled,
`setupLayerBlackedOut` only `GL_TEXTURE_2D`; `disableTexturing`,
`setupDimLayerBlending` and `fillWithColor` leave both disabled; every other
operation leaves both flags unchanged. -/
theorem texture_targets_exclusive (s : World) (ops : List Op)
    (h : s.gl.atMostOneTexTarget) :
    (runOps ops s).gl.atMostOneTexTarget ∧
    (∀ (name : Nat) (g : GLState),
      texFlags (construct name g) = (g.texture2D, g.textureExternalOES)) ∧
    (∀ (name : Nat) (maxTex : Int) (maxVp : Int × Int) (winW winH : Int),
      (construct name (GLState.initial maxTex maxVp winW winH)).gl.atMostOneTexTarget) ∧
    (∀ (t : World) (n : Nat) (f : Bool) (m : Mat4),
      texFlags (setupLayerTexturing n f m t) = (false, true)) ∧
    (∀ t : World, texFlags (setupLayerBlackedOut t) = (true, false)) ∧
    (∀ t : World, texFlags (disableTexturing t) = (false, false)) ∧
    (∀ (t : World) (alpha : Int), texFlags (setupDimLayerBlending alpha t) = (false, false)) ∧
    (∀ (t : World) (mesh : Mesh) (r g b a : ℚ),
      texFlags (fillWithColor mesh r g b a t) = (false, false)) ∧
    (∀ (t : World) (op : Op), op.setsTexTargets = false → texFlags (op.apply t) = texFlags t) := by
  refine ⟨runOps_atMostOne ops s h, ?_, ?_, ?_, ?_, ?_, ?_, ?_, ?_⟩
  · intro name g
    simp [texFlags, construct_frame]
  · intro name maxTex maxVp winW winH
    simp [GLState.atMostOneTexTarget, construct_frame, GLState.initial]
  · intro t n f m
    simp [texFlags, setupLayerTexturing_frame]
  · intro t
    simp [texFlags, setupLayerBlackedOut_frame]
  · intro t
    simp [texFlags, disableTexturing_frame]
  · intro t alpha
    simp [texFlags, setupDimLayerBlending_frame]
  · intro t mesh r g b a
    simp [texFlags, fillWithColor_frame]
  · intro t op hop
    exact apply_texFlags_other op t hop

/-- The state `World.start` has both texture targets disabled. -/
theorem start_atMostOne : World.start.gl.atMostOneTexTarget := by
  simp [World.start, GLState.atMostOneTexTarget, construct_frame, GLState.initial]

/-- C8 at a concrete input: the constructed engine, then a blacked-out layer
followed by a textured layer and a draw. -/
theorem texture_targets_exclusive_witness :
    World.start.gl.atMostOneTexTarget ∧
    (runOps [.setupLayerBlackedOut, .setupLayerTexturing 7 true Mat4.identity,
      .drawMesh ⟨2, 2, 16, 4, .triangleFan, 4096, 4104⟩] World.start).gl.atMostOneTexTarget :=
  ⟨start_atMostOne,
   (texture_targets_exclusive World.start
     [.setupLayerBlackedOut, .setupLayerTexturing 7 true Mat4.identity,
      .drawMesh ⟨2, 2, 16, 4, .triangleFan, 4096, 4104⟩] start_atMostOne).1⟩

/-- C9: every operation preserves the matrix mode `GL_MODELVIEW` and none
modifies the model-view matrix. If the mode is `GL_MODELVIEW` before a call it
is `GL_MODELVIEW` after it; the constructor leaves mode and matrix as they
were; `setViewportAndProjection`, `setupLayerTexturing` and
`setupLayerBlackedOut`, which load the projection or the texture matrix, end
in `GL_MODELVIEW` whatever the mode was and leave the model-view matrix as it
was. -/
theorem matrix_mode_preserved (op : Op) (s : World) (h : s.gl.matrixMode = MatrixMode.modelview) :
    (op.apply s).gl.matrixMode = MatrixMode.modelview ∧
    (op.apply s).gl.modelview = s.gl.modelview ∧
    (∀ name : Nat, (construct name s.gl).gl.matrixMode = MatrixMode.modelview ∧
      (construct name s.gl).gl.modelview = s.gl.modelview) ∧
    (∀ (t : World) (o : Op), (o.apply t).gl.modelview = t.gl.modelview) ∧
    (∀ (t : World) (vpw vph w h : Nat) (yswap : Bool),
      (setViewportAndProjection vpw vph w h yswap t).gl.matrixMode = MatrixMode.modelview ∧
      (setViewportAndProjection vpw vph w h yswap t).gl.modelview = t.gl.modelview) ∧
    (∀ (t : World) (n : Nat) (f : Bool) (m : Mat4),
      (setupLayerTexturing n f m t).gl.matrixMode = MatrixMode.modelview ∧
      (setupLayerTexturing n f m t).gl.modelview = t.gl.modelview ∧
      (setupLayerTexturing n f m t).gl.textureMatrix = m) ∧
    (∀ t : World,
      (setupLayerBlackedOut t).gl.matrixMode = MatrixMode.modelview ∧
      (setupLayerBlackedOut t).gl.modelview = t.gl.modelview ∧
      (setupLayerBlackedOut t).gl.textureMatrix = Mat4.identity) := by
  refine ⟨?_, (apply_matrix op s).2, ?_, ?_, ?_, ?_, ?_⟩
  · rcases (apply_matrix op s).1 with h1 | h1
    · exact h1
    · rw [h1]; exact h
  · intro name
    simp [construct_frame, h]
  · intro t o
    exact (apply_matrix o t).2
  · intro t vpw vph w h' yswap
    simp [setViewportAndProjection_frame]
  · intro t n f m
    refine ⟨(setupLayerTexturing_frame n f m t).2.1, (setupLayerTexturing_frame n f m t).2.2.1, ?_⟩
    simp [setupLayerTexturing, glMatrixMode, glLoadMatrixf, glEnable, glDisable, GLState.setCap,
      GLState.setCurrentMatrix]
  · intro t
    refine ⟨(setupLayerBlackedOut_frame t).2.1, (setupLayerBlackedOut_frame t).2.2.1, ?_⟩
    simp [setupLayerBlackedOut, glMatrixMode, glLoadIdentity, glEnable, glDisable, GLState.setCap,
      GLState.setCurrentMatrix]

/-- The state `World.start` is in matrix mode `GL_MODELVIEW`. -/
theorem start_matrixMode : World.start.gl.matrixMode = MatrixMode.modelview := by
  simp [World.start, construct_frame, GLState.initial]

/-- C9 at a concrete input: `setViewportAndProjection` on the constructed
engine. -/
theorem matrix_mode_preserved_witness :
    World.start.gl.matrixMode = MatrixMode.modelview ∧
    ((Op.setViewportAndProjection 1280 720 1280 720 false).apply World.start).gl.matrixMode =
      MatrixMode.modelview ∧
    ((Op.setViewportAndProjection 1280 720 1280 720 false).apply World.start).gl.modelview =
      World.start.gl.modelview :=
  ⟨start_matrixMode,
   (matrix_mode_preserved (Op.setViewportAndProjection 1280 720 1280 720 false) World.start
     start_matrixMode).1,
   (matrix_mode_preserved (Op.setViewportAndProjection 1280 720 1280 720 false) World.start
     start_matrixMode).2.1⟩

end GLES11
